import Mathlib

/-!
Shallow embedding of the idempotent exercise-session ingest service
(`src/ingestHandler.ts`, `src/idempotencyService.ts`, `src/validators.ts`,
`src/types.ts`).  Timestamps are modelled as integers (milliseconds since
epoch, the value of `Date.getTime()`); all JavaScript numbers carrying
metric values are modelled as rationals.  JavaScript truthiness on numbers
(falsy exactly at 0) is modelled explicitly by `truthyQ`/`jsOr`; truthiness
on objects (`Date`, `Timestamp`, response objects) is `Option.isSome`,
since those objects are always truthy when present.
-/

/-- Event types of `types.ts` (`'start' | 'update' | 'end'`). -/
inductive EventType where
  | start
  | update
  | end_
deriving DecidableEq, Repr

/-- Session status of `types.ts` (`'active' | 'completed' | 'abandoned'`). -/
inductive SessionStatus where
  | active
  | completed
  | abandoned
deriving DecidableEq, Repr

/-- Reconciliation reasons of `types.ts`. -/
inductive ReconReason where
  | clock_drift
  | out_of_order
  | manual
deriving DecidableEq, Repr

/-- `ExerciseSession.metrics` of `types.ts`. -/
structure SessionMetrics where
  totalDuration : ℚ
  caloriesBurned : ℚ
  distance : Option ℚ
  heartRateAvg : Option ℚ
  heartRateDataPoints : Option ℚ
deriving DecidableEq, Repr

/-- `ExerciseSession` of `types.ts`.  The optional boolean
`requiresReconciliation` is collapsed to `Bool` (absent = `false`),
matching its use under JS truthiness in the source. -/
structure ExerciseSession where
  sessionId : String
  userId : String
  startTime : ℤ
  endTime : Option ℤ
  lastUpdated : ℤ
  lastReconciled : Option ℤ
  lastEventTime : Option ℤ
  lastEventSequence : Option ℚ
  version : ℤ
  metrics : SessionMetrics
  status : SessionStatus
  requiresReconciliation : Bool
  reconciliationReason : Option ReconReason
deriving DecidableEq, Repr

/-- The optional `metrics` object of an `IngestRequest` (`types.ts`). -/
structure ReqMetrics where
  calories : Option ℚ
  distance : Option ℚ
  heartRate : Option ℚ
  duration : Option ℚ
deriving DecidableEq, Repr

/-- `IngestRequest` of `types.ts`.  `timestamp` is the parsed value of the
ISO-8601 string (`new Date(payload.timestamp).getTime()`); the validator
rejects unparsable timestamps before the core sees them. -/
structure IngestRequest where
  idempotencyKey : String
  sessionId : String
  userId : String
  eventId : String
  eventType : EventType
  timestamp : ℤ
  metrics : Option ReqMetrics
  eventSequence : Option ℚ
  _requiresReconciliation : Bool
  _clockDriftDetected : Bool
deriving DecidableEq, Repr

/-- `ExerciseEvent` of `types.ts`, as written by `processEvent`
(`ingestHandler.ts` lines 154-167).  `serverTimestamp` is the transaction
commit time. -/
structure ExerciseEvent where
  eventId : String
  sessionId : String
  userId : String
  timestamp : ℤ
  type : EventType
  metrics : Option ReqMetrics
  clientTimestamp : ℤ
  serverTimestamp : ℤ
  eventSequence : ℚ
  schemaVersion : ℤ
  outOfOrder : Bool
  clockDriftDetected : Bool
deriving DecidableEq, Repr

/-- JS truthiness of an optional number: present and nonzero. -/
def truthyQ (o : Option ℚ) : Bool :=
  match o with
  | some x => decide (x ≠ 0)
  | none => false

/-- JS `x || d` for an optional number `x`: the value when present and
nonzero (truthy), otherwise the default `d`. -/
def jsOr (o : Option ℚ) (d : ℚ) : ℚ :=
  match o with
  | some x => if x = 0 then d else x
  | none => d

/-- One hour in milliseconds (`validators.ts`). -/
def oneHourMs : ℤ := 60 * 60 * 1000

/-- One week in milliseconds (`validators.ts`). -/
def oneWeekMs : ℤ := 7 * 24 * 60 * 60 * 1000

/-- The `calories` range check of `validatePayload` (`validators.ts`). -/
def checkCalories (m : ReqMetrics) : Option String :=
  match m.calories with
  | some c => if c < 0 ∨ c > 1000 then some "Invalid calories (0-1000)" else none
  | none => none

/-- The `distance` range check of `validatePayload` (`validators.ts`). -/
def checkDistance (m : ReqMetrics) : Option String :=
  match m.distance with
  | some d => if d < 0 ∨ d > 100000 then some "Invalid distance (0-100km)" else none
  | none => none

/-- The `heartRate` range check of `validatePayload` (`validators.ts`). -/
def checkHeartRate (m : ReqMetrics) : Option String :=
  match m.heartRate with
  | some h => if h < 30 ∨ h > 250 then some "Invalid heart rate (30-250)" else none
  | none => none

/-- The `duration` range check of `validatePayload` (`validators.ts`). -/
def checkDuration (m : ReqMetrics) : Option String :=
  match m.duration with
  | some du => if du < 0 ∨ du > 14400 then some "Invalid duration (0-4 hours)" else none
  | none => none

/-- The `metrics` block of `validatePayload`: sequential checks with
early return, i.e. the first error wins. -/
def checkMetrics (m : ReqMetrics) : Option String :=
  match checkCalories m with
  | some e => some e
  | none =>
    match checkDistance m with
    | some e => some e
    | none =>
      match checkHeartRate m with
      | some e => some e
      | none => checkDuration m

/-- The `eventSequence` check of `validatePayload`: a non-negative
integer (`Number.isInteger` modelled as denominator 1). -/
def checkEventSequence (p : IngestRequest) : Option String :=
  match p.eventSequence with
  | some q => if q < 0 ∨ q.den ≠ 1 then some "Invalid event sequence" else none
  | none => none

/-- `validatePayload` of `validators.ts`, returning the first error or
`none` for a valid payload.  Field-presence and `typeof` checks are
discharged by the typed embedding; string emptiness models JS string
falsiness.  `nowMs` is `Date.now()` at validation time. -/
def validatePayload (p : IngestRequest) (nowMs : ℤ) : Option String :=
  if p.idempotencyKey = "" then some "Missing or invalid idempotency key"
  else if p.idempotencyKey.length > 128 then some "Idempotency key too long (max 128 chars)"
  else if p.sessionId = "" then some "Missing or invalid session ID"
  else if p.userId = "" then some "Missing or invalid user ID"
  else if p.eventId = "" then some "Missing or invalid event ID"
  else if p.timestamp < nowMs - oneWeekMs then some "Timestamp too old (max 1 week)"
  else if p.timestamp > nowMs + oneHourMs then some "Timestamp too far in future (max 1 hour)"
  else
    match (match p.metrics with | some m => checkMetrics m | none => none) with
    | some e => some e
    | none => checkEventSequence p

/-- `createNewSession` of `ingestHandler.ts` (lines 187-208).  `commit`
is the server timestamp (`FieldValue.serverTimestamp()`). -/
def createNewSession (p : IngestRequest) (commit : ℤ) : ExerciseSession :=
  { sessionId := p.sessionId
    userId := p.userId
    startTime := p.timestamp
    endTime := none
    lastUpdated := commit
    lastReconciled := none
    lastEventTime := some p.timestamp
    lastEventSequence := some (jsOr p.eventSequence 0)
    version := 1
    metrics :=
      { totalDuration := 0
        caloriesBurned := jsOr (p.metrics.bind (fun m => m.calories)) 0
        distance := some (jsOr (p.metrics.bind (fun m => m.distance)) 0)
        heartRateAvg := p.metrics.bind (fun m => m.heartRate)
        heartRateDataPoints :=
          some (if truthyQ (p.metrics.bind (fun m => m.heartRate)) then
                  max (jsOr (p.metrics.bind (fun m => m.duration)) 1) 1
                else 0) }
    status := .active
    requiresReconciliation := false
    reconciliationReason := none }

/-- The start-marker block of `updateSessionMetrics` (`ingestHandler.ts`
lines 217-221): a start event may only pull `startTime` earlier.
`session.startTime` is a required `Date`, always truthy, so the JS guard
`!session.startTime || eventTime < startTime` reduces to the comparison. -/
def applyStartMarker (s : ExerciseSession) (p : IngestRequest) : ExerciseSession :=
  if p.eventType = .start ∧ p.timestamp < s.startTime then
    { s with startTime := p.timestamp }
  else s

/-- The end-marker block of `updateSessionMetrics` (lines 224-229): an
end event may only push `endTime` later, and completes the session. -/
def applyEndMarker (s : ExerciseSession) (p : IngestRequest) : ExerciseSession :=
  if p.eventType = .end_ then
    let s' :=
      match s.endTime with
      | none => { s with endTime := some p.timestamp }
      | some t => if p.timestamp > t then { s with endTime := some p.timestamp } else s
    { s' with status := .completed }
  else s

/-- The calories branch of `updateSessionMetrics` (lines 234-236):
non-negative deltas are accumulated. -/
def applyCalories (s : ExerciseSession) (m : ReqMetrics) : ExerciseSession :=
  match m.calories with
  | some c =>
    if c ≥ 0 then
      { s with metrics := { s.metrics with caloriesBurned := s.metrics.caloriesBurned + c } }
    else s
  | none => s

/-- The distance branch of `updateSessionMetrics` (lines 239-244):
non-negative absolute values folded by monotonic maximum. -/
def applyDistance (s : ExerciseSession) (m : ReqMetrics) : ExerciseSession :=
  match m.distance with
  | some d =>
    if d ≥ 0 then
      { s with metrics := { s.metrics with distance := some (max (jsOr s.metrics.distance 0) d) } }
    else s
  | none => s

/-- The heart-rate branch of `updateSessionMetrics` (lines 247-261):
readings in `(0, 250]` folded by the duration-weighted running mean,
with JS `||` defaults on duration, weight and previous average. -/
def applyHeartRate (s : ExerciseSession) (m : ReqMetrics) : ExerciseSession :=
  match m.heartRate with
  | some h =>
    if 0 < h ∧ h ≤ 250 then
      let dur := max (jsOr m.duration 1) 1
      let w := jsOr s.metrics.heartRateDataPoints 0
      let a := jsOr s.metrics.heartRateAvg h
      let tw := w + dur
      if tw > 0 then
        { s with metrics :=
            { s.metrics with
                heartRateAvg := some ((a * w + h * dur) / tw)
                heartRateDataPoints := some tw } }
      else s
    else s
  | none => s

/-- The `if (payload.metrics)` block of `updateSessionMetrics` (lines
232-262): calories, then distance, then heart rate. -/
def applyMetricsBlock (s : ExerciseSession) (p : IngestRequest) : ExerciseSession :=
  match p.metrics with
  | none => s
  | some m => applyHeartRate (applyDistance (applyCalories s m) m) m

/-- The duration recomputation of `updateSessionMetrics` (lines
264-271): `(endTime ?? now) - startTime` in seconds. -/
def recomputeDuration (s : ExerciseSession) (now : ℤ) : ExerciseSession :=
  match s.endTime with
  | some e =>
    { s with metrics := { s.metrics with totalDuration := ((e : ℚ) - (s.startTime : ℚ)) / 1000 } }
  | none =>
    { s with metrics := { s.metrics with totalDuration := ((now : ℚ) - (s.startTime : ℚ)) / 1000 } }

/-- `updateSessionMetrics` of `ingestHandler.ts` (lines 210-277).  `now`
is `Date.now()` at merge time and `commit` the server timestamp
(`FieldValue.serverTimestamp()` at line 273). -/
def updateSessionMetrics (s0 : ExerciseSession) (p : IngestRequest) (now commit : ℤ) :
    ExerciseSession :=
  let s4 := recomputeDuration (applyMetricsBlock (applyEndMarker (applyStartMarker s0 p) p) p) now
  { s4 with lastUpdated := commit, version := s4.version + 1 }

/-- Sequence-based out-of-order detection of `processEvent`
(`ingestHandler.ts` lines 111-119).  The JS guard
`payload.eventSequence && session.lastEventSequence` is truthy only when
both numbers are present and nonzero. -/
def seqOutOfOrder (s : ExerciseSession) (p : IngestRequest) : Bool :=
  truthyQ p.eventSequence && truthyQ s.lastEventSequence &&
    decide (jsOr p.eventSequence 0 ≤ jsOr s.lastEventSequence 0)

/-- Time-based out-of-order detection of `processEvent`
(`ingestHandler.ts` lines 121-127): a present `lastEventTime` (a `Date`,
always truthy) strictly later than the event time. -/
def timeOutOfOrder (s : ExerciseSession) (p : IngestRequest) : Bool :=
  match s.lastEventTime with
  | some t => decide (p.timestamp < t)
  | none => false

/-- The mutation performed by either out-of-order branch of
`processEvent` (`ingestHandler.ts` lines 114-116 and 123-125). -/
def flagOutOfOrder (s : ExerciseSession) : ExerciseSession :=
  { s with requiresReconciliation := true, reconciliationReason := some .out_of_order }

/-- The unconditional tracking-field update of `processEvent`
(`ingestHandler.ts` lines 134-142). -/
def applyWatermark (s : ExerciseSession) (p : IngestRequest) : ExerciseSession :=
  let s' := { s with lastEventSequence := some (max (jsOr s.lastEventSequence 0) (jsOr p.eventSequence 0)) }
  match s'.lastEventTime with
  | none => { s' with lastEventTime := some p.timestamp }
  | some t => if p.timestamp > t then { s' with lastEventTime := some p.timestamp } else s'

/-- The existing-session branch of `processEvent` (`ingestHandler.ts`
lines 105-145): out-of-order detection, conditional aggregation, and the
watermark update, returning the session value passed to
`transaction.set` together with the `outOfOrder` flag. -/
def mergeExistingSession (s0 : ExerciseSession) (p : IngestRequest) (now commit : ℤ) :
    ExerciseSession × Bool :=
  let ooo := seqOutOfOrder s0 p || timeOutOfOrder s0 p
  let s1 := if ooo then flagOutOfOrder s0 else updateSessionMetrics s0 p now commit
  (applyWatermark s1 p, ooo)

/-- The clock-drift block of `processEvent` (`ingestHandler.ts` lines
147-151), applied to the in-memory session object after the session
write was issued. -/
def clockDriftAdjust (p : IngestRequest) (s : ExerciseSession) : ExerciseSession :=
  if p._requiresReconciliation ∧ ¬s.requiresReconciliation then
    { s with requiresReconciliation := true, reconciliationReason := some .clock_drift }
  else s

/-- Status of a `processEvent` result object. -/
inductive RespStatus where
  | success
  | already_processed
deriving DecidableEq, Repr

/-- The `currentMetrics` block of the success payload
(`ingestHandler.ts` lines 175-180). -/
structure CurrentMetrics where
  duration : ℚ
  calories : ℚ
  distance : Option ℚ
  avgHeartRate : Option ℚ
deriving DecidableEq, Repr

/-- The result object returned by `processEvent` (lines 84-88 for the
duplicate path, lines 171-183 for the success path). -/
structure ProcResult where
  status : RespStatus
  sessionId : String
  sessionStatus : Option SessionStatus
  currentMetrics : Option CurrentMetrics
  requiresReconciliation : Option Bool
  outOfOrder : Option Bool
  warning : Option String
deriving DecidableEq, Repr

/-- The observable effects of one `processEvent` transaction:
`sessionAtSet` is the session value at the `transaction.set` call (lines
104 or 144, `none` when no session write was issued), `eventWrite` the
Event document written (line 169), and `result` the returned object. -/
structure ProcOutcome where
  sessionAtSet : Option ExerciseSession
  eventWrite : Option ExerciseEvent
  result : ProcResult
deriving DecidableEq, Repr

/-- The duplicate-eventId result of `processEvent` (lines 84-88). -/
def dupResult (p : IngestRequest) : ProcResult :=
  { status := .already_processed
    sessionId := p.sessionId
    sessionStatus := none
    currentMetrics := none
    requiresReconciliation := none
    outOfOrder := none
    warning := some "Event already processed with different idempotency key" }

/-- The success result of `processEvent` (lines 171-183), built from the
final in-memory session object. -/
def successResult (s : ExerciseSession) (ooo : Bool) : ProcResult :=
  { status := .success
    sessionId := s.sessionId
    sessionStatus := some s.status
    currentMetrics := some
      { duration := s.metrics.totalDuration
        calories := s.metrics.caloriesBurned
        distance := s.metrics.distance
        avgHeartRate := s.metrics.heartRateAvg }
    requiresReconciliation := some s.requiresReconciliation
    outOfOrder := some ooo
    warning := none }

/-- The Event document written by `processEvent` (lines 154-167). -/
def mkEventRecord (p : IngestRequest) (ooo : Bool) (commit : ℤ) : ExerciseEvent :=
  { eventId := p.eventId
    sessionId := p.sessionId
    userId := p.userId
    timestamp := p.timestamp
    type := p.eventType
    metrics := p.metrics
    clientTimestamp := p.timestamp
    serverTimestamp := commit
    eventSequence := jsOr p.eventSequence 0
    schemaVersion := 1
    outOfOrder := ooo
    clockDriftDetected := p._clockDriftDetected }

/-- `processEvent` of `ingestHandler.ts` (lines 67-185), as one atomic
transaction.  `eventExists` is the result of the duplicate check on the
Event document (line 74), `sessionOpt` the stored Session document,
`now` wall-clock time and `commit` the server timestamp.  Throws (as
`Except.error`) for a non-start event on a missing session (line 98). -/
def processEvent (eventExists : Bool) (sessionOpt : Option ExerciseSession)
    (p : IngestRequest) (now commit : ℤ) : Except String ProcOutcome :=
  if eventExists then
    .ok { sessionAtSet := none, eventWrite := none, result := dupResult p }
  else
    match sessionOpt with
    | none =>
      if p.eventType ≠ .start then
        .error "Cannot create session without start event"
      else
        let session := createNewSession p commit
        let final := clockDriftAdjust p session
        .ok { sessionAtSet := some session
              eventWrite := some (mkEventRecord p false commit)
              result := successResult final false }
    | some s0 =>
      let merged := mergeExistingSession s0 p now commit
      let final := clockDriftAdjust p merged.1
      .ok { sessionAtSet := some merged.1
            eventWrite := some (mkEventRecord p merged.2 commit)
            result := successResult final merged.2 }

/-- Idempotency record status of `types.ts`
(`'processing' | 'completed' | 'failed'`). -/
inductive IdemStatus where
  | processing
  | completed
  | failed
deriving DecidableEq, Repr

/-- `IdempotencyRecord` of `types.ts`, with response type `R` (the
service is generic; this repository instantiates it with the
`processEvent` result object, which is always a truthy JS value, so
response truthiness is `Option.isSome`). -/
structure IdemRecord (R : Type) where
  key : String
  request : IngestRequest
  response : Option R
  error : Option String
  status : IdemStatus
  createdAt : ℤ
  processingStartedAt : Option ℤ
  expiresAt : ℤ
deriving DecidableEq, Repr

/-- `EXPIRY_HOURS` of `idempotencyService.ts`, in milliseconds. -/
def EXPIRY_MS : ℤ := 24 * 60 * 60 * 1000

/-- `PROCESSING_TIMEOUT_MS` of `idempotencyService.ts` (2 minutes). -/
def PROCESSING_TIMEOUT_MS : ℤ := 2 * 60 * 1000

/-- The fresh `processing` record written by the claim transaction
(`idempotencyService.ts` lines 52-67). -/
def freshRecord (R : Type) (key : String) (request : IngestRequest) (now : ℤ) : IdemRecord R :=
  { key := key
    request := request
    response := none
    error := none
    status := .processing
    createdAt := now
    processingStartedAt := some now
    expiresAt := now + EXPIRY_MS }

/-- Outcome of the claim transaction of `processWithIdempotency`
(`idempotencyService.ts` lines 19-69): a cached replay, a thrown
`CONCURRENT_REQUEST` or `PREVIOUS_FAILED` error, or a fresh claim that
proceeds to phase 2. -/
inductive ClaimRes (R : Type) where
  | fromCache (r : R)
  | errConcurrent
  | errPrevFailed (e : Option String)
  | proceed (newRec : IdemRecord R)
deriving DecidableEq, Repr

/-- The claim transaction of `processWithIdempotency`, line by line:
expiry check (line 27), completed-with-response replay (lines 28-33),
stale-processing takeover versus concurrent rejection (lines 34-45),
failed rejection (lines 46-48), and otherwise a fresh `processing`
record (lines 52-68).  A `completed` record without a response falls
through every branch in the source and is re-claimed. -/
def claimPhase {R : Type} (stored : Option (IdemRecord R)) (now : ℤ)
    (key : String) (request : IngestRequest) : ClaimRes R :=
  match stored with
  | some data =>
    if now < data.expiresAt then
      match data.status, data.response with
      | .completed, some r => .fromCache r
      | .completed, none => .proceed (freshRecord R key request now)
      | .processing, _ =>
        let processingAge := now - (data.processingStartedAt.getD data.createdAt)
        if processingAge > PROCESSING_TIMEOUT_MS then .proceed (freshRecord R key request now)
        else .errConcurrent
      | .failed, _ => .errPrevFailed data.error
    else .proceed (freshRecord R key request now)
  | none => .proceed (freshRecord R key request now)

/-- The outer catch of `processWithIdempotency` (lines 97-108), mapping
the internal error messages to the caller-visible ones. -/
def outerCatch (msg : String) : String :=
  if msg = "CONCURRENT_REQUEST" then "Request is already being processed"
  else if msg.startsWith "PREVIOUS_FAILED" then
    "Previous request failed, please retry with new idempotency key"
  else msg

/-- The successful finalize update (`docRef.update`, lines 81-85). -/
def completeRecord {R : Type} (rec : IdemRecord R) (r : R) : IdemRecord R :=
  { rec with response := some r, status := .completed }

/-- The failure finalize update (`docRef.update`, lines 90-94). -/
def failRecord {R : Type} (rec : IdemRecord R) (e : String) : IdemRecord R :=
  { rec with status := .failed, error := some e }

/-- The observable behaviour of one `processWithIdempotency` call:
its return value or thrown error message, whether the wrapped processor
was invoked, and the stored record after the call. -/
structure IdemOutcome (R : Type) where
  result : Except String (Bool × R)
  invokedProcessor : Bool
  finalRecord : Option (IdemRecord R)
deriving Repr

/-- `processWithIdempotency` of `idempotencyService.ts` (lines 10-109)
for one call running without interference: `stored` is the record read
by the claim transaction, `now` the transaction time, and `proc` the
outcome the processor produces if invoked.  The returned pair is
`(isNew, response)`. -/
def processWithIdempotency {R : Type} (stored : Option (IdemRecord R)) (now : ℤ)
    (key : String) (request : IngestRequest) (proc : Except String R) : IdemOutcome R :=
  match claimPhase stored now key request with
  | .fromCache r =>
    { result := .ok (false, r), invokedProcessor := false, finalRecord := stored }
  | .errConcurrent =>
    { result := .error (outerCatch "CONCURRENT_REQUEST")
      invokedProcessor := false, finalRecord := stored }
  | .errPrevFailed e =>
    { result := .error (outerCatch ("PREVIOUS_FAILED: " ++ e.getD "undefined"))
      invokedProcessor := false, finalRecord := stored }
  | .proceed nr =>
    match proc with
    | .ok r =>
      { result := .ok (true, r), invokedProcessor := true
        finalRecord := some (completeRecord nr r) }
    | .error e =>
      { result := .error (outerCatch e), invokedProcessor := true
        finalRecord := some (failRecord nr e) }

/-- The error-to-HTTP mapping of the ingest endpoint
(`ingestHandler.ts` lines 51-58): the concurrent-claim message maps to
409 with itself as body, anything else to 500 with a generic body. -/
def httpStatusForProcessingError (msg : String) : ℕ × String :=
  if msg = "Request is already being processed" then (409, msg)
  else (500, "Processing failed")

/-- Atomic actions on one idempotency key, for reasoning about
interleaved concurrent calls: a claim transaction at time `now`, and the
two finalize updates performed by a caller whose claim proceeded.
`finOk r` carries the processor result of that caller. -/
inductive IdemAct (R : Type) where
  | claim (now : ℤ)
  | finOk (r : R)
  | finFail (e : String)
deriving DecidableEq, Repr

/-- Effect of one atomic action on the stored record.  A finalize is a
`docRef.update`, merging fields into whatever record is stored. -/
def stepRec {R : Type} (key : String) (request : IngestRequest)
    (st : Option (IdemRecord R)) : IdemAct R → Option (IdemRecord R)
  | .claim now =>
    match claimPhase st now key request with
    | .proceed nr => some nr
    | _ => st
  | .finOk r => st.map (fun rec => completeRecord rec r)
  | .finFail e => st.map (fun rec => failRecord rec e)

/-- Whether a claim outcome proceeds to phase 2 (i.e. invokes the
wrapped processor). -/
def isProceedB {R : Type} : ClaimRes R → Bool
  | .proceed _ => true
  | _ => false

/-- Number of processor invocations along a trace of interleaved
actions: each claim whose transaction commits a fresh `processing`
record invokes the wrapped processor exactly once. -/
def proceedCount {R : Type} (key : String) (request : IngestRequest) :
    Option (IdemRecord R) → List (IdemAct R) → ℕ
  | _, [] => 0
  | st, a :: rest =>
    (match a with
     | .claim now => if isProceedB (claimPhase st now key request) then 1 else 0
     | _ => 0) + proceedCount key request (stepRec key request st a) rest

/-- The success responses observed along a trace: a cached replay
returns the stored response to its caller, and a caller that proceeded
returns its own processor result `r` (the value it finalizes with). -/
def succResponses {R : Type} (key : String) (request : IngestRequest) :
    Option (IdemRecord R) → List (IdemAct R) → List R
  | _, [] => []
  | st, a :: rest =>
    (match a with
     | .claim now =>
       match claimPhase st now key request with
       | .fromCache r => [r]
       | _ => []
     | .finOk r => [r]
     | .finFail _ => []) ++ succResponses key request (stepRec key request st a) rest

/-- A claim at time `now` sees neither an expired record nor a stale
(timed-out) `processing` record: the hypotheses of the "absent the
2-minute processing timeout" clause, plus the 24-hour expiry being
treated as absence. -/
def freshAtB {R : Type} (st : Option (IdemRecord R)) (now : ℤ) : Bool :=
  match st with
  | none => true
  | some rec =>
    decide (now < rec.expiresAt) &&
      (!(rec.status = .processing) ||
        decide (now - (rec.processingStartedAt.getD rec.createdAt) ≤ PROCESSING_TIMEOUT_MS))

/-- Well-formed interleavings: every claim runs while the record is
fresh (no takeover, no expiry), and every finalize is issued by a caller
whose claim previously proceeded (`pending` counts claims that proceeded
but have not finalized yet). -/
def wfTraceB {R : Type} (key : String) (request : IngestRequest) :
    Option (IdemRecord R) → ℕ → List (IdemAct R) → Bool
  | _, _, [] => true
  | st, pending, .claim now :: rest =>
    freshAtB st now &&
      wfTraceB key request (stepRec key request st (.claim now))
        (pending + (if isProceedB (claimPhase st now key request) then 1 else 0)) rest
  | st, pending, .finOk r :: rest =>
    decide (1 ≤ pending) && wfTraceB key request (stepRec key request st (.finOk r)) (pending - 1) rest
  | st, pending, .finFail e :: rest =>
    decide (1 ≤ pending) && wfTraceB key request (stepRec key request st (.finFail e)) (pending - 1) rest

/-- State invariant of the idempotency protocol: a missing record has no
pending claimant; a `processing` record has at most one; a `completed`
record carries a response and has no pending claimant; a `failed` record
has no pending claimant. -/
def stInvB {R : Type} (st : Option (IdemRecord R)) (pending : ℕ) : Bool :=
  match st with
  | none => decide (pending = 0)
  | some rec =>
    match rec.status with
    | .processing => decide (pending ≤ 1)
    | .completed => rec.response.isSome && decide (pending = 0)
    | .failed => decide (pending = 0)

/-- Concrete request metrics used by witnesses below (no heart rate, so
that concrete merges evaluate by `decide`). -/
def wMetrics : ReqMetrics :=
  { calories := some 5, distance := some 10, heartRate := none, duration := none }

/-- Concrete request metrics carrying a heart-rate reading. -/
def wStartMetrics : ReqMetrics :=
  { calories := some 5, distance := some 10, heartRate := some 100, duration := some 60 }

/-- Concrete update request used by witnesses below. -/
def wReq : IngestRequest :=
  { idempotencyKey := "key-1", sessionId := "s1", userId := "u1", eventId := "e1"
    eventType := .update, timestamp := 2000, metrics := some wMetrics
    eventSequence := some 5, _requiresReconciliation := false, _clockDriftDetected := false }

/-- Concrete start request used by witnesses below; valid for
`validatePayload` at `nowMs = 2000`. -/
def wStartReq : IngestRequest :=
  { wReq with eventType := .start, eventSequence := some 1, metrics := some wStartMetrics }

/-- Concrete update request carrying a heart-rate reading. -/
def wHRReq : IngestRequest :=
  { wReq with metrics := some wStartMetrics }

/-- Concrete stored session used by witnesses below. -/
def wSession : ExerciseSession :=
  { sessionId := "s1", userId := "u1", startTime := 0, endTime := none, lastUpdated := 0
    lastReconciled := none, lastEventTime := some 1000, lastEventSequence := some 3
    version := 4
    metrics := { totalDuration := 0, caloriesBurned := 10, distance := some 5
                 heartRateAvg := some 100, heartRateDataPoints := some 60 }
    status := .active, requiresReconciliation := false, reconciliationReason := none }

/-- `wSession` already flagged for reconciliation with reason
`clock_drift`, as left by an earlier clock-drift merge. -/
def wSessionDrift : ExerciseSession :=
  { wSession with requiresReconciliation := true, reconciliationReason := some .clock_drift }

/-- An update request whose `eventSequence` is present but `0`: below
`wSession`'s watermark of `3`, yet falsy in JS. -/
def wReqSeqZero : IngestRequest :=
  { wReq with eventSequence := some 0 }

/-- An update request with `eventSequence = 2`, behind `wSession`'s
watermark of `3`. -/
def wReqBehind : IngestRequest :=
  { wReq with eventSequence := some 2 }

/-- A completed idempotency record with a cached response, stored under
`wReq`'s key. -/
def wRecCompleted : IdemRecord ℕ :=
  { key := "key-1", request := wReq, response := some 7, error := none
    status := .completed, createdAt := 0, processingStartedAt := some 0, expiresAt := 1000 }

/-- A fresh `processing` idempotency record owned by an in-flight
attempt. -/
def wRecProcessing : IdemRecord ℕ :=
  { key := "key-1", request := wReq, response := none, error := none
    status := .processing, createdAt := 0, processingStartedAt := some 0
    expiresAt := EXPIRY_MS }

/-- JS `x || 0` on an optional number is `Option.getD` with default 0. -/
theorem jsOr_zero_eq_getD (o : Option ℚ) : jsOr o 0 = o.getD 0 := by
  cases o with
  | none => rfl
  | some x =>
    by_cases hx : x = 0 <;> simp [jsOr, hx]

/-- JS `x || d` agrees with `Option.getD` when the stored value is not
the falsy `0`. -/
theorem jsOr_eq_getD_of_ne (o : Option ℚ) (d : ℚ) (h : o ≠ some 0) : jsOr o d = o.getD d := by
  cases o with
  | none => rfl
  | some x =>
    have hx : x ≠ 0 := by
      intro h0
      exact h (by rw [h0])
    simp [jsOr, hx]

/-- `Math.max(x || 1, 1)` agrees with `max (getD 1) 1`: the two differ
only at a stored `0`, where both collapse to `1`. -/
theorem max_jsOr_one (o : Option ℚ) : max (jsOr o 1) 1 = max (o.getD 1) 1 := by
  cases o with
  | none => rfl
  | some x =>
    by_cases hx : x = 0
    · simp [jsOr, hx]
    · simp [jsOr, hx]

/-- The claim transaction replays a completed record with a cached
response (`idempotencyService.ts` lines 27-33). -/
theorem claimPhase_completed {R : Type} (rec : IdemRecord R) (now : ℤ) (key : String)
    (request : IngestRequest) (r : R) (hexp : now < rec.expiresAt)
    (hst : rec.status = .completed) (hresp : rec.response = some r) :
    claimPhase (some rec) now key request = .fromCache r := by
  simp [claimPhase, hexp, hst, hresp]

/-- The claim transaction rejects a fresh `processing` record
(`idempotencyService.ts` lines 34-45). -/
theorem claimPhase_processing_fresh {R : Type} (rec : IdemRecord R) (now : ℤ) (key : String)
    (request : IngestRequest) (hexp : now < rec.expiresAt) (hst : rec.status = .processing)
    (hage : now - (rec.processingStartedAt.getD rec.createdAt) ≤ PROCESSING_TIMEOUT_MS) :
    claimPhase (some rec) now key request = .errConcurrent := by
  simp only [claimPhase, if_pos hexp, hst]
  rw [if_neg (by omega)]

/-- The claim transaction rejects a failed record
(`idempotencyService.ts` lines 46-48). -/
theorem claimPhase_failed {R : Type} (rec : IdemRecord R) (now : ℤ) (key : String)
    (request : IngestRequest) (hexp : now < rec.expiresAt) (hst : rec.status = .failed) :
    claimPhase (some rec) now key request = .errPrevFailed rec.error := by
  simp [claimPhase, hexp, hst]

/-- Claim C1: when the stored idempotency record for the key exists, is
not expired (`now < expiresAt`), and has status `completed` (hence, in
any state this service produces, a cached response `r`), the call
returns that cached response with `isNew = false`, does not invoke the
processor, and leaves the record as it was. -/
theorem C1_completed_replays_cached {R : Type} (rec : IdemRecord R) (now : ℤ) (key : String)
    (request : IngestRequest) (proc : Except String R) (r : R)
    (hexp : now < rec.expiresAt) (hst : rec.status = .completed) (hresp : rec.response = some r) :
    processWithIdempotency (some rec) now key request proc =
      { result := .ok (false, r), invokedProcessor := false, finalRecord := some rec } := by
  rw [processWithIdempotency, claimPhase_completed rec now key request r hexp hst hresp]

/-- Witness for C1 at a concrete completed record. -/
theorem C1_completed_replays_cached_witness :
    processWithIdempotency (some wRecCompleted) 100 "key-1" wReq (.ok 9) =
      { result := .ok (false, 7), invokedProcessor := false, finalRecord := some wRecCompleted } :=
  C1_completed_replays_cached wRecCompleted 100 "key-1" wReq (.ok 9) 7 (by decide) rfl rfl

/-- Claim C4: when the stored record exists, is not expired, has status
`processing`, and its processing age (from `processingStartedAt`) is
within the 2-minute timeout, the call fails with the concurrent-request
error, does not invoke the processor, and leaves the record unmodified;
the ingest endpoint maps exactly that error message to HTTP 409. -/
theorem C4_concurrent_claim_conflict {R : Type} (rec : IdemRecord R) (now t : ℤ) (key : String)
    (request : IngestRequest) (proc : Except String R)
    (hexp : now < rec.expiresAt) (hst : rec.status = .processing)
    (hps : rec.processingStartedAt = some t) (hage : now - t ≤ PROCESSING_TIMEOUT_MS) :
    processWithIdempotency (some rec) now key request proc =
      { result := .error "Request is already being processed"
        invokedProcessor := false, finalRecord := some rec } ∧
    httpStatusForProcessingError "Request is already being processed" =
      (409, "Request is already being processed") := by
  constructor
  · rw [processWithIdempotency,
      claimPhase_processing_fresh rec now key request hexp hst (by rw [hps]; simpa using hage)]
    rfl
  · rfl

/-- Witness for C4 at a concrete in-flight `processing` record. -/
theorem C4_concurrent_claim_conflict_witness :
    processWithIdempotency (some wRecProcessing) 100 "key-1" wReq (.ok 9) =
      { result := .error "Request is already being processed"
        invokedProcessor := false, finalRecord := some wRecProcessing } ∧
    httpStatusForProcessingError "Request is already being processed" =
      (409, "Request is already being processed") :=
  C4_concurrent_claim_conflict wRecProcessing 100 0 "key-1" wReq (.ok 9)
    (by decide) rfl rfl (by decide)

/-- The start-marker block only moves `startTime`. -/
theorem applyStartMarker_eta (s : ExerciseSession) (p : IngestRequest) :
    applyStartMarker s p = { s with startTime := (applyStartMarker s p).startTime } := by
  unfold applyStartMarker
  split <;> rfl

/-- The end-marker block only moves `endTime` and `status`. -/
theorem applyEndMarker_eta (s : ExerciseSession) (p : IngestRequest) :
    applyEndMarker s p =
      { s with endTime := (applyEndMarker s p).endTime
               status := (applyEndMarker s p).status } := by
  unfold applyEndMarker
  split
  · cases hend : s.endTime with
    | none => rfl
    | some t =>
      dsimp only
      split <;> simp [hend]
  · rfl

/-- The calories branch only moves `metrics.caloriesBurned`. -/
theorem applyCalories_eta (s : ExerciseSession) (m : ReqMetrics) :
    applyCalories s m =
      { s with metrics := { s.metrics with caloriesBurned := (applyCalories s m).metrics.caloriesBurned } } := by
  unfold applyCalories
  cases m.calories with
  | none => rfl
  | some c =>
    dsimp only
    split <;> rfl

/-- The distance branch only moves `metrics.distance`. -/
theorem applyDistance_eta (s : ExerciseSession) (m : ReqMetrics) :
    applyDistance s m =
      { s with metrics := { s.metrics with distance := (applyDistance s m).metrics.distance } } := by
  unfold applyDistance
  cases m.distance with
  | none => rfl
  | some d =>
    dsimp only
    split <;> rfl

/-- The heart-rate branch only moves `metrics.heartRateAvg` and
`metrics.heartRateDataPoints`. -/
theorem applyHeartRate_eta (s : ExerciseSession) (m : ReqMetrics) :
    applyHeartRate s m =
      { s with metrics :=
          { s.metrics with
              heartRateAvg := (applyHeartRate s m).metrics.heartRateAvg
              heartRateDataPoints := (applyHeartRate s m).metrics.heartRateDataPoints } } := by
  unfold applyHeartRate
  cases m.heartRate with
  | none => rfl
  | some h =>
    dsimp only
    split
    · split <;> rfl
    · rfl

/-- The metrics block leaves every session field outside `metrics`
untouched, and inside `metrics` touches only the three aggregates. -/
theorem applyMetricsBlock_eta (s : ExerciseSession) (p : IngestRequest) :
    applyMetricsBlock s p =
      { s with metrics :=
          { s.metrics with
              caloriesBurned := (applyMetricsBlock s p).metrics.caloriesBurned
              distance := (applyMetricsBlock s p).metrics.distance
              heartRateAvg := (applyMetricsBlock s p).metrics.heartRateAvg
              heartRateDataPoints := (applyMetricsBlock s p).metrics.heartRateDataPoints } } := by
  unfold applyMetricsBlock
  cases p.metrics with
  | none => rfl
  | some m =>
    dsimp only
    rw [applyHeartRate_eta (applyDistance (applyCalories s m) m) m,
      applyDistance_eta (applyCalories s m) m, applyCalories_eta s m]

/-- The duration recomputation only moves `metrics.totalDuration`. -/
theorem recomputeDuration_eta (s : ExerciseSession) (now : ℤ) :
    recomputeDuration s now =
      { s with metrics := { s.metrics with totalDuration := (recomputeDuration s now).metrics.totalDuration } } := by
  unfold recomputeDuration
  cases hend : s.endTime with
  | none => rfl
  | some e => rfl

/-- The start-marker block leaves `metrics` untouched. -/
@[simp] theorem applyStartMarker_metrics (s : ExerciseSession) (p : IngestRequest) :
    (applyStartMarker s p).metrics = s.metrics := by
  rw [applyStartMarker_eta]

/-- The start-marker block leaves `version` untouched. -/
@[simp] theorem applyStartMarker_version (s : ExerciseSession) (p : IngestRequest) :
    (applyStartMarker s p).version = s.version := by
  rw [applyStartMarker_eta]

/-- The start-marker block leaves the watermark untouched. -/
@[simp] theorem applyStartMarker_lastEventSequence (s : ExerciseSession) (p : IngestRequest) :
    (applyStartMarker s p).lastEventSequence = s.lastEventSequence := by
  rw [applyStartMarker_eta]

/-- The start-marker block leaves the time watermark untouched. -/
@[simp] theorem applyStartMarker_lastEventTime (s : ExerciseSession) (p : IngestRequest) :
    (applyStartMarker s p).lastEventTime = s.lastEventTime := by
  rw [applyStartMarker_eta]

/-- The start-marker block leaves the reconciliation flag untouched. -/
@[simp] theorem applyStartMarker_requiresReconciliation (s : ExerciseSession) (p : IngestRequest) :
    (applyStartMarker s p).requiresReconciliation = s.requiresReconciliation := by
  rw [applyStartMarker_eta]

/-- The start-marker block leaves the reconciliation reason untouched. -/
@[simp] theorem applyStartMarker_reconciliationReason (s : ExerciseSession) (p : IngestRequest) :
    (applyStartMarker s p).reconciliationReason = s.reconciliationReason := by
  rw [applyStartMarker_eta]

/-- The end-marker block leaves `metrics` untouched. -/
@[simp] theorem applyEndMarker_metrics (s : ExerciseSession) (p : IngestRequest) :
    (applyEndMarker s p).metrics = s.metrics := by
  rw [applyEndMarker_eta]

/-- The end-marker block leaves `version` untouched. -/
@[simp] theorem applyEndMarker_version (s : ExerciseSession) (p : IngestRequest) :
    (applyEndMarker s p).version = s.version := by
  rw [applyEndMarker_eta]

/-- The end-marker block leaves the watermark untouched. -/
@[simp] theorem applyEndMarker_lastEventSequence (s : ExerciseSession) (p : IngestRequest) :
    (applyEndMarker s p).lastEventSequence = s.lastEventSequence := by
  rw [applyEndMarker_eta]

/-- The end-marker block leaves the time watermark untouched. -/
@[simp] theorem applyEndMarker_lastEventTime (s : ExerciseSession) (p : IngestRequest) :
    (applyEndMarker s p).lastEventTime = s.lastEventTime := by
  rw [applyEndMarker_eta]

/-- The end-marker block leaves the reconciliation flag untouched. -/
@[simp] theorem applyEndMarker_requiresReconciliation (s : ExerciseSession) (p : IngestRequest) :
    (applyEndMarker s p).requiresReconciliation = s.requiresReconciliation := by
  rw [applyEndMarker_eta]

/-- The end-marker block leaves the reconciliation reason untouched. -/
@[simp] theorem applyEndMarker_reconciliationReason (s : ExerciseSession) (p : IngestRequest) :
    (applyEndMarker s p).reconciliationReason = s.reconciliationReason := by
  rw [applyEndMarker_eta]

/-- The metrics block leaves `version` untouched. -/
@[simp] theorem applyMetricsBlock_version (s : ExerciseSession) (p : IngestRequest) :
    (applyMetricsBlock s p).version = s.version := by
  rw [applyMetricsBlock_eta]

/-- The metrics block leaves the watermark untouched. -/
@[simp] theorem applyMetricsBlock_lastEventSequence (s : ExerciseSession) (p : IngestRequest) :
    (applyMetricsBlock s p).lastEventSequence = s.lastEventSequence := by
  rw [applyMetricsBlock_eta]

/-- The metrics block leaves the time watermark untouched. -/
@[simp] theorem applyMetricsBlock_lastEventTime (s : ExerciseSession) (p : IngestRequest) :
    (applyMetricsBlock s p).lastEventTime = s.lastEventTime := by
  rw [applyMetricsBlock_eta]

/-- The metrics block leaves the reconciliation flag untouched. -/
@[simp] theorem applyMetricsBlock_requiresReconciliation (s : ExerciseSession) (p : IngestRequest) :
    (applyMetricsBlock s p).requiresReconciliation = s.requiresReconciliation := by
  rw [applyMetricsBlock_eta]

/-- The metrics block leaves the reconciliation reason untouched. -/
@[simp] theorem applyMetricsBlock_reconciliationReason (s : ExerciseSession) (p : IngestRequest) :
    (applyMetricsBlock s p).reconciliationReason = s.reconciliationReason := by
  rw [applyMetricsBlock_eta]

/-- The calories branch leaves the heart-rate average untouched. -/
@[simp] theorem applyCalories_heartRateAvg (s : ExerciseSession) (m : ReqMetrics) :
    (applyCalories s m).metrics.heartRateAvg = s.metrics.heartRateAvg := by
  rw [applyCalories_eta]

/-- The calories branch leaves the heart-rate weight untouched. -/
@[simp] theorem applyCalories_heartRateDataPoints (s : ExerciseSession) (m : ReqMetrics) :
    (applyCalories s m).metrics.heartRateDataPoints = s.metrics.heartRateDataPoints := by
  rw [applyCalories_eta]

/-- The distance branch leaves the heart-rate average untouched. -/
@[simp] theorem applyDistance_heartRateAvg (s : ExerciseSession) (m : ReqMetrics) :
    (applyDistance s m).metrics.heartRateAvg = s.metrics.heartRateAvg := by
  rw [applyDistance_eta]

/-- The distance branch leaves the heart-rate weight untouched. -/
@[simp] theorem applyDistance_heartRateDataPoints (s : ExerciseSession) (m : ReqMetrics) :
    (applyDistance s m).metrics.heartRateDataPoints = s.metrics.heartRateDataPoints := by
  rw [applyDistance_eta]

/-- The duration recomputation leaves `version` untouched. -/
@[simp] theorem recomputeDuration_version (s : ExerciseSession) (now : ℤ) :
    (recomputeDuration s now).version = s.version := by
  rw [recomputeDuration_eta]

/-- The duration recomputation leaves the watermark untouched. -/
@[simp] theorem recomputeDuration_lastEventSequence (s : ExerciseSession) (now : ℤ) :
    (recomputeDuration s now).lastEventSequence = s.lastEventSequence := by
  rw [recomputeDuration_eta]

/-- The duration recomputation leaves the time watermark untouched. -/
@[simp] theorem recomputeDuration_lastEventTime (s : ExerciseSession) (now : ℤ) :
    (recomputeDuration s now).lastEventTime = s.lastEventTime := by
  rw [recomputeDuration_eta]

/-- The duration recomputation leaves the reconciliation flag untouched. -/
@[simp] theorem recomputeDuration_requiresReconciliation (s : ExerciseSession) (now : ℤ) :
    (recomputeDuration s now).requiresReconciliation = s.requiresReconciliation := by
  rw [recomputeDuration_eta]

/-- The duration recomputation leaves the reconciliation reason untouched. -/
@[simp] theorem recomputeDuration_reconciliationReason (s : ExerciseSession) (now : ℤ) :
    (recomputeDuration s now).reconciliationReason = s.reconciliationReason := by
  rw [recomputeDuration_eta]

/-- The duration recomputation leaves the heart-rate average untouched. -/
@[simp] theorem recomputeDuration_heartRateAvg (s : ExerciseSession) (now : ℤ) :
    (recomputeDuration s now).metrics.heartRateAvg = s.metrics.heartRateAvg := by
  rw [recomputeDuration_eta]

/-- The duration recomputation leaves the heart-rate weight untouched. -/
@[simp] theorem recomputeDuration_heartRateDataPoints (s : ExerciseSession) (now : ℤ) :
    (recomputeDuration s now).metrics.heartRateDataPoints = s.metrics.heartRateDataPoints := by
  rw [recomputeDuration_eta]

/-- `updateSessionMetrics` bumps `version` by exactly one. -/
@[simp] theorem updateSessionMetrics_version (s : ExerciseSession) (p : IngestRequest)
    (now commit : ℤ) : (updateSessionMetrics s p now commit).version = s.version + 1 := by
  show (recomputeDuration (applyMetricsBlock (applyEndMarker (applyStartMarker s p) p) p) now).version + 1
      = s.version + 1
  simp

/-- `updateSessionMetrics` stamps `lastUpdated` with the commit time. -/
@[simp] theorem updateSessionMetrics_lastUpdated (s : ExerciseSession) (p : IngestRequest)
    (now commit : ℤ) : (updateSessionMetrics s p now commit).lastUpdated = commit := rfl

/-- `updateSessionMetrics` leaves the sequence watermark untouched. -/
@[simp] theorem updateSessionMetrics_lastEventSequence (s : ExerciseSession) (p : IngestRequest)
    (now commit : ℤ) :
    (updateSessionMetrics s p now commit).lastEventSequence = s.lastEventSequence := by
  show (recomputeDuration (applyMetricsBlock (applyEndMarker (applyStartMarker s p) p) p) now).lastEventSequence
      = s.lastEventSequence
  simp

/-- `updateSessionMetrics` leaves the time watermark untouched. -/
@[simp] theorem updateSessionMetrics_lastEventTime (s : ExerciseSession) (p : IngestRequest)
    (now commit : ℤ) :
    (updateSessionMetrics s p now commit).lastEventTime = s.lastEventTime := by
  show (recomputeDuration (applyMetricsBlock (applyEndMarker (applyStartMarker s p) p) p) now).lastEventTime
      = s.lastEventTime
  simp

/-- `updateSessionMetrics` leaves the reconciliation flag untouched. -/
@[simp] theorem updateSessionMetrics_requiresReconciliation (s : ExerciseSession)
    (p : IngestRequest) (now commit : ℤ) :
    (updateSessionMetrics s p now commit).requiresReconciliation = s.requiresReconciliation := by
  show (recomputeDuration (applyMetricsBlock (applyEndMarker (applyStartMarker s p) p) p) now).requiresReconciliation
      = s.requiresReconciliation
  simp

/-- `updateSessionMetrics` leaves the reconciliation reason untouched. -/
@[simp] theorem updateSessionMetrics_reconciliationReason (s : ExerciseSession)
    (p : IngestRequest) (now commit : ℤ) :
    (updateSessionMetrics s p now commit).reconciliationReason = s.reconciliationReason := by
  show (recomputeDuration (applyMetricsBlock (applyEndMarker (applyStartMarker s p) p) p) now).reconciliationReason
      = s.reconciliationReason
  simp

/-- The out-of-order flagging touches only the two reconciliation
fields. -/
@[simp] theorem flagOutOfOrder_metrics (s : ExerciseSession) :
    (flagOutOfOrder s).metrics = s.metrics := rfl

/-- The out-of-order flagging leaves `version` untouched. -/
@[simp] theorem flagOutOfOrder_version (s : ExerciseSession) :
    (flagOutOfOrder s).version = s.version := rfl

/-- The out-of-order flagging leaves `lastUpdated` untouched. -/
@[simp] theorem flagOutOfOrder_lastUpdated (s : ExerciseSession) :
    (flagOutOfOrder s).lastUpdated = s.lastUpdated := rfl

/-- The out-of-order flagging leaves the watermark untouched. -/
@[simp] theorem flagOutOfOrder_lastEventSequence (s : ExerciseSession) :
    (flagOutOfOrder s).lastEventSequence = s.lastEventSequence := rfl

/-- The out-of-order flagging leaves the time watermark untouched. -/
@[simp] theorem flagOutOfOrder_lastEventTime (s : ExerciseSession) :
    (flagOutOfOrder s).lastEventTime = s.lastEventTime := rfl

/-- The out-of-order flagging sets the reconciliation flag. -/
@[simp] theorem flagOutOfOrder_requiresReconciliation (s : ExerciseSession) :
    (flagOutOfOrder s).requiresReconciliation = true := rfl

/-- The out-of-order flagging sets the reason to `out_of_order`. -/
@[simp] theorem flagOutOfOrder_reconciliationReason (s : ExerciseSession) :
    (flagOutOfOrder s).reconciliationReason = some .out_of_order := rfl

/-- The watermark update sets `lastEventSequence` to the maximum of the
previous watermark and the event sequence, both defaulted to 0. -/
@[simp] theorem applyWatermark_lastEventSequence (s : ExerciseSession) (p : IngestRequest) :
    (applyWatermark s p).lastEventSequence
      = some (max (jsOr s.lastEventSequence 0) (jsOr p.eventSequence 0)) := by
  unfold applyWatermark
  dsimp only
  cases h : s.lastEventTime with
  | none => rfl
  | some t =>
    dsimp only
    split <;> rfl

/-- The watermark update sets `lastEventTime` to the maximum of the
previous time watermark (if any) and the event time. -/
@[simp] theorem applyWatermark_lastEventTime (s : ExerciseSession) (p : IngestRequest) :
    (applyWatermark s p).lastEventTime
      = some (max (s.lastEventTime.getD p.timestamp) p.timestamp) := by
  unfold applyWatermark
  dsimp only
  cases h : s.lastEventTime with
  | none => simp
  | some t =>
    dsimp only
    split
    · rename_i hgt
      simp [max_eq_right (le_of_lt hgt)]
    · rename_i hle
      simp [max_eq_left (not_lt.mp hle)]

/-- The watermark update leaves `metrics` untouched. -/
@[simp] theorem applyWatermark_metrics (s : ExerciseSession) (p : IngestRequest) :
    (applyWatermark s p).metrics = s.metrics := by
  unfold applyWatermark
  dsimp only
  cases h : s.lastEventTime with
  | none => rfl
  | some t =>
    dsimp only
    split <;> rfl

/-- The watermark update leaves `version` untouched. -/
@[simp] theorem applyWatermark_version (s : ExerciseSession) (p : IngestRequest) :
    (applyWatermark s p).version = s.version := by
  unfold applyWatermark
  dsimp only
  cases h : s.lastEventTime with
  | none => rfl
  | some t =>
    dsimp only
    split <;> rfl

/-- The watermark update leaves `lastUpdated` untouched. -/
@[simp] theorem applyWatermark_lastUpdated (s : ExerciseSession) (p : IngestRequest) :
    (applyWatermark s p).lastUpdated = s.lastUpdated := by
  unfold applyWatermark
  dsimp only
  cases h : s.lastEventTime with
  | none => rfl
  | some t =>
    dsimp only
    split <;> rfl

/-- The watermark update leaves the reconciliation flag untouched. -/
@[simp] theorem applyWatermark_requiresReconciliation (s : ExerciseSession) (p : IngestRequest) :
    (applyWatermark s p).requiresReconciliation = s.requiresReconciliation := by
  unfold applyWatermark
  dsimp only
  cases h : s.lastEventTime with
  | none => rfl
  | some t =>
    dsimp only
    split <;> rfl

/-- The watermark update leaves the reconciliation reason untouched. -/
@[simp] theorem applyWatermark_reconciliationReason (s : ExerciseSession) (p : IngestRequest) :
    (applyWatermark s p).reconciliationReason = s.reconciliationReason := by
  unfold applyWatermark
  dsimp only
  cases h : s.lastEventTime with
  | none => rfl
  | some t =>
    dsimp only
    split <;> rfl

/-- Claim C3: when an Event document already exists for the event id,
the merge issues no session write and no event write and returns the
distinguished `already_processed` result; and a first merge that
succeeds does write an Event document — so the same `eventId` submitted
under two different idempotency keys (both of which reach `processEvent`)
yields exactly one Event document. -/
theorem C3_duplicate_event_frame (s : Option ExerciseSession) (p : IngestRequest)
    (now commit : ℤ) (o : ProcOutcome)
    (hfirst : processEvent false s p now commit = .ok o) :
    processEvent true s p now commit =
      .ok { sessionAtSet := none, eventWrite := none, result := dupResult p } ∧
    (dupResult p).status = .already_processed ∧
    (dupResult p).warning = some "Event already processed with different idempotency key" ∧
    o.eventWrite.isSome = true := by
  refine ⟨rfl, rfl, rfl, ?_⟩
  cases s with
  | none =>
    by_cases ht : p.eventType = .start
    · simp [processEvent, ht] at hfirst
      rw [← hfirst]
      rfl
    · simp [processEvent, ht] at hfirst
  | some s0 =>
    simp [processEvent] at hfirst
    rw [← hfirst]
    rfl

/-- Witness for C3: a concrete first merge writes the event, the
duplicate second merge writes nothing. -/
theorem C3_duplicate_event_frame_witness :
    processEvent true (some wSession) wReq 0 0 =
      .ok { sessionAtSet := none, eventWrite := none, result := dupResult wReq } ∧
    (dupResult wReq).status = .already_processed ∧
    (dupResult wReq).warning = some "Event already processed with different idempotency key" ∧
    (ProcOutcome.mk (some (mergeExistingSession wSession wReq 0 0).1)
      (some (mkEventRecord wReq (mergeExistingSession wSession wReq 0 0).2 0))
      (successResult (clockDriftAdjust wReq (mergeExistingSession wSession wReq 0 0).1)
        (mergeExistingSession wSession wReq 0 0).2)).eventWrite.isSome = true :=
  C3_duplicate_event_frame (some wSession) wReq 0 0
    (ProcOutcome.mk (some (mergeExistingSession wSession wReq 0 0).1)
      (some (mkEventRecord wReq (mergeExistingSession wSession wReq 0 0).2 0))
      (successResult (clockDriftAdjust wReq (mergeExistingSession wSession wReq 0 0).1)
        (mergeExistingSession wSession wReq 0 0).2))
    rfl

/-- Claim C8: every merge of a non-duplicate event into an existing
session, flagged or not, moves the watermark to
`lastEventSequence = max(prev, event.sequence)` (absent values read as
0) and `lastEventTime = max(prev, event.timestamp)`; the watermark never
decreases. -/
theorem C8_watermark_monotone (s : ExerciseSession) (p : IngestRequest) (now commit : ℤ) :
    (mergeExistingSession s p now commit).1.lastEventSequence
        = some (max (jsOr s.lastEventSequence 0) (jsOr p.eventSequence 0)) ∧
    (mergeExistingSession s p now commit).1.lastEventTime
        = some (max (s.lastEventTime.getD p.timestamp) p.timestamp) ∧
    (∀ b : ℚ, s.lastEventSequence = some b →
       b ≤ max (jsOr s.lastEventSequence 0) (jsOr p.eventSequence 0) ∨ b = 0) ∧
    (∀ t : ℤ, s.lastEventTime = some t →
       t ≤ max (s.lastEventTime.getD p.timestamp) p.timestamp) ∧
    processEvent false (some s) p now commit =
      .ok { sessionAtSet := some (mergeExistingSession s p now commit).1
            eventWrite := some (mkEventRecord p (mergeExistingSession s p now commit).2 commit)
            result := successResult (clockDriftAdjust p (mergeExistingSession s p now commit).1)
              (mergeExistingSession s p now commit).2 } := by
  refine ⟨?_, ?_, ?_, ?_, rfl⟩
  · unfold mergeExistingSession
    dsimp only
    split <;> simp
  · unfold mergeExistingSession
    dsimp only
    split <;> simp
  · intro b hb
    by_cases hb0 : b = 0
    · exact Or.inr hb0
    · left
      have : jsOr s.lastEventSequence 0 = b := by
        rw [hb]
        simp [jsOr, hb0]
      rw [← this]
      exact le_max_left _ _
  · intro t ht
    rw [ht]
    exact le_max_left _ _

/-- Witness for C8 at a concrete session and request. -/
theorem C8_watermark_monotone_witness :
    (mergeExistingSession wSession wReq 0 0).1.lastEventSequence
        = some (max (jsOr wSession.lastEventSequence 0) (jsOr wReq.eventSequence 0)) ∧
    ((3 : ℚ) ≤ max (jsOr wSession.lastEventSequence 0) (jsOr wReq.eventSequence 0) ∨ (3 : ℚ) = 0) :=
  ⟨(C8_watermark_monotone wSession wReq 0 0).1,
   (C8_watermark_monotone wSession wReq 0 0).2.2.1 3 rfl⟩

/-- Counterexample to C5 as stated: `eventSequence = 0` is present and
below the stored watermark `3`, yet the JS truthiness guard skips the
sequence check, so the event is written with `outOfOrder = false`, the
session is not flagged, and the event's metrics ARE folded into the
aggregate (distance moves from 5 to `max 5 10 = 10`). -/
theorem C5_counterexample :
    (processEvent false (some wSession) wReqSeqZero 1500 1500).toOption.map
        (fun o => (o.eventWrite.map (fun e => e.outOfOrder),
                   o.sessionAtSet.map
                     (fun s => (s.requiresReconciliation, s.metrics.distance))))
      = some (some false, some (false, some 10)) ∧
    wSession.metrics.distance = some 5 ∧
    wReqSeqZero.eventSequence = some 0 ∧
    wSession.lastEventSequence = some 3 := by
  decide

/-- Claim C5 as amended: when both `event.eventSequence` and
`session.lastEventSequence` are present and NONZERO and the event's
sequence is at or below the watermark, the merge flags out-of-order:
the Event document is still written with `outOfOrder = true`, the
session gains `requiresReconciliation = true` with reason
`out_of_order`, and none of the event's metrics are folded into the
aggregate. -/
theorem C5_amended_out_of_order_quarantine (s : ExerciseSession) (p : IngestRequest)
    (now commit : ℤ) (a b : ℚ)
    (hpe : p.eventSequence = some a) (ha : a ≠ 0)
    (hse : s.lastEventSequence = some b) (hb : b ≠ 0) (hab : a ≤ b) :
    (mergeExistingSession s p now commit).2 = true ∧
    (mergeExistingSession s p now commit).1.requiresReconciliation = true ∧
    (mergeExistingSession s p now commit).1.reconciliationReason = some .out_of_order ∧
    (mergeExistingSession s p now commit).1.metrics = s.metrics ∧
    processEvent false (some s) p now commit =
      .ok { sessionAtSet := some (mergeExistingSession s p now commit).1
            eventWrite := some (mkEventRecord p true commit)
            result := successResult (clockDriftAdjust p (mergeExistingSession s p now commit).1)
              true } := by
  have hseq : seqOutOfOrder s p = true := by
    unfold seqOutOfOrder
    rw [hpe, hse]
    simp [truthyQ, jsOr, ha, hb, hab]
  have hflag : (seqOutOfOrder s p || timeOutOfOrder s p) = true := by
    rw [hseq]
    rfl
  have h2 : (mergeExistingSession s p now commit).2 = true := hflag
  refine ⟨h2, ?_, ?_, ?_, ?_⟩
  · simp [mergeExistingSession, hflag]
  · simp [mergeExistingSession, hflag]
  · simp [mergeExistingSession, hflag]
  · calc processEvent false (some s) p now commit
        = .ok { sessionAtSet := some (mergeExistingSession s p now commit).1
                eventWrite := some (mkEventRecord p (mergeExistingSession s p now commit).2 commit)
                result := successResult
                  (clockDriftAdjust p (mergeExistingSession s p now commit).1)
                  (mergeExistingSession s p now commit).2 } := rfl
      _ = _ := by rw [h2]

/-- Witness for the amended C5 at a concrete behind-watermark event. -/
theorem C5_amended_out_of_order_quarantine_witness :
    (mergeExistingSession wSession wReqBehind 1500 1500).2 = true ∧
    (mergeExistingSession wSession wReqBehind 1500 1500).1.metrics = wSession.metrics :=
  ⟨(C5_amended_out_of_order_quarantine wSession wReqBehind 1500 1500 2 3
      rfl (by decide) rfl (by decide) (by decide)).1,
   (C5_amended_out_of_order_quarantine wSession wReqBehind 1500 1500 2 3
      rfl (by decide) rfl (by decide) (by decide)).2.2.2.1⟩

/-- Counterexample to C6 as stated: a session whose stored reason is
`clock_drift` receives an out-of-order event, and the merge overwrites
the reason with `out_of_order` — the first-recorded reason does NOT
win. -/
theorem C6_counterexample :
    (processEvent false (some wSessionDrift) wReqBehind 1500 1500).toOption.map
        (fun o => o.sessionAtSet.map (fun s => s.reconciliationReason))
      = some (some (some .out_of_order)) ∧
    wSessionDrift.reconciliationReason = some .clock_drift := by
  decide

/-- Claim C6 as amended: an out-of-order merge always sets
`reconciliationReason` to `out_of_order`, overwriting any previously
recorded reason (including `clock_drift`); a merge not flagged
out-of-order leaves the stored reason unchanged; and the clock-drift
indicator is only recorded when `requiresReconciliation` is not already
set, so `clock_drift` never overwrites a previously recorded reason. -/
theorem C6_amended_reason_overwrite (s : ExerciseSession) (p : IngestRequest)
    (now commit : ℤ) :
    ((mergeExistingSession s p now commit).2 = true →
      (mergeExistingSession s p now commit).1.reconciliationReason = some .out_of_order) ∧
    ((mergeExistingSession s p now commit).2 = false →
      (mergeExistingSession s p now commit).1.reconciliationReason = s.reconciliationReason) ∧
    (∀ s₁ : ExerciseSession, s₁.requiresReconciliation = true → clockDriftAdjust p s₁ = s₁) ∧
    (∀ s₁ : ExerciseSession, (clockDriftAdjust p s₁).reconciliationReason = some .clock_drift →
      s₁.requiresReconciliation = false ∨ s₁.reconciliationReason = some .clock_drift) := by
  refine ⟨?_, ?_, ?_, ?_⟩
  · intro hflag
    have h : (seqOutOfOrder s p || timeOutOfOrder s p) = true := hflag
    simp [mergeExistingSession, h]
  · intro hflag
    have h : (seqOutOfOrder s p || timeOutOfOrder s p) = false := hflag
    simp [mergeExistingSession, h]
  · intro s₁ h
    unfold clockDriftAdjust
    rw [if_neg]
    simp [h]
  · intro s₁ h
    unfold clockDriftAdjust at h
    by_cases hc : p._requiresReconciliation = true ∧ ¬s₁.requiresReconciliation = true
    · left
      simpa using hc.2
    · right
      rw [if_neg (by simpa using hc)] at h
      exact h

/-- Witness for the amended C6: the out-of-order merge over the
clock-drift-flagged session indeed records `out_of_order`, and the
clock-drift block leaves an already-flagged session untouched. -/
theorem C6_amended_reason_overwrite_witness :
    (mergeExistingSession wSessionDrift wReqBehind 1500 1500).1.reconciliationReason
        = some .out_of_order ∧
    clockDriftAdjust wReqBehind wSessionDrift = wSessionDrift :=
  ⟨(C6_amended_reason_overwrite wSessionDrift wReqBehind 1500 1500).1 (by decide),
   (C6_amended_reason_overwrite wSessionDrift wReqBehind 1500 1500).2.2.1 wSessionDrift rfl⟩

/-- Counterexample to C7 as stated: an out-of-order merge into the
existing session leaves `version` at 4 (no bump) and `lastUpdated` at 0
(not the commit time 1500), while the event is stored flagged. -/
theorem C7_counterexample :
    (processEvent false (some wSession) wReqBehind 1500 1500).toOption.map
        (fun o => (o.sessionAtSet.map (fun s => (s.version, s.lastUpdated)),
                   o.eventWrite.map (fun e => e.outOfOrder)))
      = some (some (4, 0), some true) ∧
    wSession.version = 4 ∧
    wSession.lastUpdated = 0 := by
  decide

/-- Claim C7 as amended: every merge of a non-duplicate event into an
existing session that is NOT flagged out-of-order increments `version`
by exactly one and sets `lastUpdated` to the merge's commit time, and
every merge that IS flagged out-of-order skips the aggregator, leaving
`version` and `lastUpdated` unchanged. -/
theorem C7_amended_version_bump (s : ExerciseSession) (p : IngestRequest) (now commit : ℤ) :
    ((mergeExistingSession s p now commit).2 = false →
      (mergeExistingSession s p now commit).1.version = s.version + 1 ∧
      (mergeExistingSession s p now commit).1.lastUpdated = commit) ∧
    ((mergeExistingSession s p now commit).2 = true →
      (mergeExistingSession s p now commit).1.version = s.version ∧
      (mergeExistingSession s p now commit).1.lastUpdated = s.lastUpdated) ∧
    processEvent false (some s) p now commit =
      .ok { sessionAtSet := some (mergeExistingSession s p now commit).1
            eventWrite := some (mkEventRecord p (mergeExistingSession s p now commit).2 commit)
            result := successResult (clockDriftAdjust p (mergeExistingSession s p now commit).1)
              (mergeExistingSession s p now commit).2 } := by
  refine ⟨?_, ?_, rfl⟩
  · intro hflag
    have h : (seqOutOfOrder s p || timeOutOfOrder s p) = false := hflag
    constructor
    · simp [mergeExistingSession, h]
    · simp [mergeExistingSession, h]
  · intro hflag
    have h : (seqOutOfOrder s p || timeOutOfOrder s p) = true := hflag
    constructor
    · simp [mergeExistingSession, h]
    · simp [mergeExistingSession, h]

/-- Witness for the amended C7: a concrete in-order merge bumps the
version and stamps `lastUpdated`, and a concrete out-of-order merge
leaves both unchanged. -/
theorem C7_amended_version_bump_witness :
    ((mergeExistingSession wSession wReq 1500 1500).1.version = wSession.version + 1 ∧
     (mergeExistingSession wSession wReq 1500 1500).1.lastUpdated = 1500) ∧
    ((mergeExistingSession wSession wReqBehind 1500 1500).1.version = wSession.version ∧
     (mergeExistingSession wSession wReqBehind 1500 1500).1.lastUpdated = wSession.lastUpdated) :=
  ⟨(C7_amended_version_bump wSession wReq 1500 1500).1 (by decide),
   (C7_amended_version_bump wSession wReqBehind 1500 1500).2.1 (by decide)⟩

/-- The heart-rate branch, solved: for a reading in `(0, 250]`, a prior
average that is not the falsy `0`, and a non-negative prior weight, the
new average is the duration-weighted running mean and the new weight is
the old weight plus the duration. -/
theorem applyHeartRate_spec (s : ExerciseSession) (m : ReqMetrics) (h : ℚ)
    (hh : m.heartRate = some h) (h0 : 0 < h) (h250 : h ≤ 250)
    (havg : s.metrics.heartRateAvg ≠ some 0)
    (hw : 0 ≤ jsOr s.metrics.heartRateDataPoints 0) :
    (applyHeartRate s m).metrics.heartRateAvg =
      some ((s.metrics.heartRateAvg.getD h * jsOr s.metrics.heartRateDataPoints 0
             + h * max (jsOr m.duration 1) 1)
            / (jsOr s.metrics.heartRateDataPoints 0 + max (jsOr m.duration 1) 1)) ∧
    (applyHeartRate s m).metrics.heartRateDataPoints =
      some (jsOr s.metrics.heartRateDataPoints 0 + max (jsOr m.duration 1) 1) := by
  have hdur : (1 : ℚ) ≤ max (jsOr m.duration 1) 1 := le_max_right _ _
  have htw : 0 < jsOr s.metrics.heartRateDataPoints 0 + max (jsOr m.duration 1) 1 := by
    linarith
  unfold applyHeartRate
  rw [hh]
  dsimp only
  rw [if_pos ⟨h0, h250⟩, if_pos htw, jsOr_eq_getD_of_ne _ _ havg]
  exact ⟨rfl, rfl⟩

/-- The heart-rate fields of a full `updateSessionMetrics` are those of
the heart-rate branch applied after the calories and distance branches. -/
theorem updateSessionMetrics_heartRate_fields (s : ExerciseSession) (p : IngestRequest)
    (now commit : ℤ) (m : ReqMetrics) (hm : p.metrics = some m) :
    (updateSessionMetrics s p now commit).metrics.heartRateAvg =
      (applyHeartRate (applyDistance (applyCalories (applyEndMarker (applyStartMarker s p) p) m) m) m).metrics.heartRateAvg ∧
    (updateSessionMetrics s p now commit).metrics.heartRateDataPoints =
      (applyHeartRate (applyDistance (applyCalories (applyEndMarker (applyStartMarker s p) p) m) m) m).metrics.heartRateDataPoints := by
  constructor
  · show (recomputeDuration (applyMetricsBlock (applyEndMarker (applyStartMarker s p) p) p) now).metrics.heartRateAvg = _
    rw [recomputeDuration_heartRateAvg]
    unfold applyMetricsBlock
    rw [hm]
  · show (recomputeDuration (applyMetricsBlock (applyEndMarker (applyStartMarker s p) p) p) now).metrics.heartRateDataPoints = _
    rw [recomputeDuration_heartRateDataPoints]
    unfold applyMetricsBlock
    rw [hm]

/-- Claim C9: an accepted event carrying a heart-rate reading in
`(0, 250]` updates the aggregate by the duration-weighted running mean
(`duration = max(reported || 1, 1)`, `weight_prev = heartRateDataPoints`
defaulted to 0, `avg_prev = heartRateAvg` or the new reading when no
prior average exists), and two readings `(hr1, d1)` then `(hr2, d2)`
folded into a session with no prior heart-rate data average to
`(hr1*d1 + hr2*d2) / (d1 + d2)` exactly. -/
theorem C9_weighted_heart_rate :
    (∀ (s : ExerciseSession) (p : IngestRequest) (now commit : ℤ) (m : ReqMetrics) (h : ℚ),
      p.metrics = some m → m.heartRate = some h → 0 < h → h ≤ 250 →
      s.metrics.heartRateAvg ≠ some 0 →
      0 ≤ jsOr s.metrics.heartRateDataPoints 0 →
      (updateSessionMetrics s p now commit).metrics.heartRateAvg =
        some ((s.metrics.heartRateAvg.getD h * jsOr s.metrics.heartRateDataPoints 0
               + h * max (jsOr m.duration 1) 1)
              / (jsOr s.metrics.heartRateDataPoints 0 + max (jsOr m.duration 1) 1)) ∧
      (updateSessionMetrics s p now commit).metrics.heartRateDataPoints =
        some (jsOr s.metrics.heartRateDataPoints 0 + max (jsOr m.duration 1) 1)) ∧
    (∀ (s0 : ExerciseSession) (p1 p2 : IngestRequest) (m1 m2 : ReqMetrics)
       (h1 h2 d1 d2 : ℚ) (n1 c1 n2 c2 : ℤ),
      s0.metrics.heartRateAvg = none → jsOr s0.metrics.heartRateDataPoints 0 = 0 →
      p1.metrics = some m1 → m1.heartRate = some h1 → m1.duration = some d1 →
      p2.metrics = some m2 → m2.heartRate = some h2 → m2.duration = some d2 →
      0 < h1 → h1 ≤ 250 → 0 < h2 → h2 ≤ 250 → 1 ≤ d1 → 1 ≤ d2 →
      (updateSessionMetrics (updateSessionMetrics s0 p1 n1 c1) p2 n2 c2).metrics.heartRateAvg =
        some ((h1 * d1 + h2 * d2) / (d1 + d2))) := by
  have main : ∀ (s : ExerciseSession) (p : IngestRequest) (now commit : ℤ) (m : ReqMetrics) (h : ℚ),
      p.metrics = some m → m.heartRate = some h → 0 < h → h ≤ 250 →
      s.metrics.heartRateAvg ≠ some 0 →
      0 ≤ jsOr s.metrics.heartRateDataPoints 0 →
      (updateSessionMetrics s p now commit).metrics.heartRateAvg =
        some ((s.metrics.heartRateAvg.getD h * jsOr s.metrics.heartRateDataPoints 0
               + h * max (jsOr m.duration 1) 1)
              / (jsOr s.metrics.heartRateDataPoints 0 + max (jsOr m.duration 1) 1)) ∧
      (updateSessionMetrics s p now commit).metrics.heartRateDataPoints =
        some (jsOr s.metrics.heartRateDataPoints 0 + max (jsOr m.duration 1) 1) := by
    intro s p now commit m h hm hh h0 h250 havg hw
    have hAvg : (applyDistance (applyCalories (applyEndMarker (applyStartMarker s p) p) m) m).metrics.heartRateAvg
        = s.metrics.heartRateAvg := by simp
    have hPts : (applyDistance (applyCalories (applyEndMarker (applyStartMarker s p) p) m) m).metrics.heartRateDataPoints
        = s.metrics.heartRateDataPoints := by simp
    have hspec := applyHeartRate_spec
      (applyDistance (applyCalories (applyEndMarker (applyStartMarker s p) p) m) m) m h hh h0 h250
      (by rw [hAvg]; exact havg) (by rw [hPts]; exact hw)
    have hfields := updateSessionMetrics_heartRate_fields s p now commit m hm
    refine ⟨?_, ?_⟩
    · rw [hfields.1, hspec.1, hAvg, hPts]
    · rw [hfields.2, hspec.2, hPts]
  refine ⟨main, ?_⟩
  intro s0 p1 p2 m1 m2 h1 h2 d1 d2 n1 c1 n2 c2 havg0 hw0 hm1 hh1 hd1 hm2 hh2 hd2
    h1pos h1le h2pos h2le hd1ge hd2ge
  have hd1pos : (0 : ℚ) < d1 := lt_of_lt_of_le one_pos hd1ge
  have hd2pos : (0 : ℚ) < d2 := lt_of_lt_of_le one_pos hd2ge
  have hd1ne : d1 ≠ 0 := ne_of_gt hd1pos
  have hd2ne : d2 ≠ 0 := ne_of_gt hd2pos
  have hdur1 : max (jsOr m1.duration 1) 1 = d1 := by
    rw [hd1]
    simp [jsOr, hd1ne]
    exact hd1ge
  have hdur2 : max (jsOr m2.duration 1) 1 = d2 := by
    rw [hd2]
    simp [jsOr, hd2ne]
    exact hd2ge
  have step1 := main s0 p1 n1 c1 m1 h1 hm1 hh1 h1pos h1le (by rw [havg0]; exact fun hc => Option.noConfusion hc) hw0.ge
  rw [havg0, hw0, hdur1] at step1
  have s1avg : (updateSessionMetrics s0 p1 n1 c1).metrics.heartRateAvg = some h1 := by
    rw [step1.1]
    congr 1
    rw [Option.getD_none]
    rw [mul_zero, zero_add, zero_add]
    exact mul_div_cancel_right₀ h1 hd1ne
  have s1pts : (updateSessionMetrics s0 p1 n1 c1).metrics.heartRateDataPoints = some d1 := by
    rw [step1.2, zero_add]
  have h1ne : h1 ≠ 0 := ne_of_gt h1pos
  have step2 := main (updateSessionMetrics s0 p1 n1 c1) p2 n2 c2 m2 h2 hm2 hh2 h2pos h2le
    (by rw [s1avg]; simp [h1ne]) (by rw [s1pts]; simp [jsOr, hd1ne]; exact le_of_lt hd1pos)
  rw [s1avg, s1pts, hdur2] at step2
  rw [step2.1]
  congr 1
  rw [Option.getD_some]
  have : jsOr (some d1) 0 = d1 := by simp [jsOr, hd1ne]
  rw [this]

/-- Witness for C9 at a concrete heart-rate-bearing update. -/
theorem C9_weighted_heart_rate_witness :
    (updateSessionMetrics wSession wHRReq 1500 1500).metrics.heartRateAvg =
      some ((wSession.metrics.heartRateAvg.getD 100 * jsOr wSession.metrics.heartRateDataPoints 0
             + 100 * max (jsOr wStartMetrics.duration 1) 1)
            / (jsOr wSession.metrics.heartRateDataPoints 0 + max (jsOr wStartMetrics.duration 1) 1)) ∧
    (updateSessionMetrics wSession wHRReq 1500 1500).metrics.heartRateDataPoints =
      some (jsOr wSession.metrics.heartRateDataPoints 0 + max (jsOr wStartMetrics.duration 1) 1) :=
  C9_weighted_heart_rate.1 wSession wHRReq 1500 1500 wStartMetrics 100
    rfl rfl (by decide) (by decide) (by decide) (by decide)

/-- A payload that passes validation has a metrics block that passes the
metrics checks. -/
theorem validate_checkMetrics (p : IngestRequest) (nowMs : ℤ) (m : ReqMetrics)
    (hv : validatePayload p nowMs = none) (hm : p.metrics = some m) :
    checkMetrics m = none := by
  unfold validatePayload at hv
  rw [hm] at hv
  split_ifs at hv
  dsimp only at hv
  rcases hcm : checkMetrics m with _ | e
  · rfl
  · rw [hcm] at hv
    simp at hv

/-- Passing the metrics checks implies passing the heart-rate check. -/
theorem checkMetrics_heartRate_none (m : ReqMetrics) (hcm : checkMetrics m = none) :
    checkHeartRate m = none := by
  unfold checkMetrics at hcm
  rcases h1 : checkCalories m with _ | e
  · rw [h1] at hcm
    dsimp only at hcm
    rcases h2 : checkDistance m with _ | e
    · rw [h2] at hcm
      dsimp only at hcm
      rcases h3 : checkHeartRate m with _ | e
      · rfl
      · rw [h3] at hcm
        simp at hcm
    · rw [h2] at hcm
      simp at hcm
  · rw [h1] at hcm
    simp at hcm

/-- A heart-rate reading that passes the check lies in `[30, 250]`. -/
theorem checkHeartRate_bounds (m : ReqMetrics) (h : ℚ) (hch : checkHeartRate m = none)
    (hh : m.heartRate = some h) : 30 ≤ h ∧ h ≤ 250 := by
  unfold checkHeartRate at hch
  rw [hh] at hch
  dsimp only at hch
  split_ifs at hch with hcond
  push_neg at hcond
  exact hcond

/-- Claim C10: a start event that creates a new session (hence one that
passed validation) seeds the aggregate directly from the event:
calories and distance default to a defined 0 (distance is never left
absent), `heartRateAvg` is the raw reading (no `(0, 250]` aggregation
guard is applied), `heartRateDataPoints` is `max(duration, 1)` when a
heart rate is present and 0 otherwise, `version = 1`,
`totalDuration = 0`, and the session starts `active`. -/
theorem C10_new_session_seed (p : IngestRequest) (nowMs commit : ℤ)
    (hv : validatePayload p nowMs = none) :
    (createNewSession p commit).metrics.caloriesBurned
        = (p.metrics.bind (fun m => m.calories)).getD 0 ∧
    (createNewSession p commit).metrics.distance
        = some ((p.metrics.bind (fun m => m.distance)).getD 0) ∧
    (createNewSession p commit).metrics.heartRateAvg = p.metrics.bind (fun m => m.heartRate) ∧
    ((p.metrics.bind (fun m => m.heartRate)).isSome = true →
      (createNewSession p commit).metrics.heartRateDataPoints
        = some (max ((p.metrics.bind (fun m => m.duration)).getD 1) 1)) ∧
    ((p.metrics.bind (fun m => m.heartRate)).isSome = false →
      (createNewSession p commit).metrics.heartRateDataPoints = some 0) ∧
    (createNewSession p commit).version = 1 ∧
    (createNewSession p commit).metrics.totalDuration = 0 ∧
    (createNewSession p commit).status = .active := by
  refine ⟨jsOr_zero_eq_getD _, congrArg some (jsOr_zero_eq_getD _), rfl, ?_, ?_, rfl, rfl, rfl⟩
  · intro hsome
    rcases hbind : p.metrics.bind (fun m => m.heartRate) with _ | h
    · rw [hbind] at hsome
      simp at hsome
    · rcases Option.bind_eq_some.mp hbind with ⟨m, hm, hh⟩
      have hb := checkHeartRate_bounds m h
        (checkMetrics_heartRate_none m (validate_checkMetrics p nowMs m hv hm)) hh
      have hne : h ≠ 0 := by
        intro h0
        rw [h0] at hb
        linarith [hb.1]
      have htr : truthyQ (p.metrics.bind (fun m => m.heartRate)) = true := by
        rw [hbind]
        simp [truthyQ, hne]
      show some (if truthyQ (p.metrics.bind (fun m => m.heartRate)) then
                   max (jsOr (p.metrics.bind (fun m => m.duration)) 1) 1
                 else 0) = _
      rw [htr, if_pos rfl]
      exact congrArg some (max_jsOr_one _)
  · intro hnone
    have htr : truthyQ (p.metrics.bind (fun m => m.heartRate)) = false := by
      rcases hbind : p.metrics.bind (fun m => m.heartRate) with _ | h
      · rfl
      · rw [hbind] at hnone
        simp at hnone
    show some (if truthyQ (p.metrics.bind (fun m => m.heartRate)) then
                 max (jsOr (p.metrics.bind (fun m => m.duration)) 1) 1
               else 0) = _
    rw [htr, if_neg Bool.false_ne_true]

/-- Witness for C10 at a concrete valid start request. -/
theorem C10_new_session_seed_witness :
    (createNewSession wStartReq 0).metrics.caloriesBurned
        = (wStartReq.metrics.bind (fun m => m.calories)).getD 0 ∧
    (createNewSession wStartReq 0).metrics.distance
        = some ((wStartReq.metrics.bind (fun m => m.distance)).getD 0) ∧
    (createNewSession wStartReq 0).metrics.heartRateAvg
        = wStartReq.metrics.bind (fun m => m.heartRate) ∧
    ((wStartReq.metrics.bind (fun m => m.heartRate)).isSome = true →
      (createNewSession wStartReq 0).metrics.heartRateDataPoints
        = some (max ((wStartReq.metrics.bind (fun m => m.duration)).getD 1) 1)) ∧
    ((wStartReq.metrics.bind (fun m => m.heartRate)).isSome = false →
      (createNewSession wStartReq 0).metrics.heartRateDataPoints = some 0) ∧
    (createNewSession wStartReq 0).version = 1 ∧
    (createNewSession wStartReq 0).metrics.totalDuration = 0 ∧
    (createNewSession wStartReq 0).status = .active :=
  C10_new_session_seed wStartReq 2000 0 (by decide)

/-- Unpacking the protocol state invariant for a present record. -/
theorem stInv_some_elim {R : Type} (rec : IdemRecord R) (pending : ℕ)
    (hinv : stInvB (some rec) pending = true) :
    (rec.status = .processing ∧ pending ≤ 1) ∨
    (rec.status = .completed ∧ rec.response.isSome = true ∧ pending = 0) ∨
    (rec.status = .failed ∧ pending = 0) := by
  unfold stInvB at hinv
  dsimp only at hinv
  cases hst : rec.status <;> rw [hst] at hinv
  · exact Or.inl ⟨rfl, by simpa using hinv⟩
  · simp only [Bool.and_eq_true, decide_eq_true_eq] at hinv
    exact Or.inr (Or.inl ⟨rfl, hinv.1, hinv.2⟩)
  · exact Or.inr (Or.inr ⟨rfl, by simpa using hinv⟩)

/-- Under a fresh (non-expired, non-stale) read, the claim transaction
on a present record never proceeds: it replays, rejects as concurrent,
or rejects as previously failed. -/
theorem claim_some_classify {R : Type} (rec : IdemRecord R) (now : ℤ) (key : String)
    (request : IngestRequest) (hfresh : freshAtB (some rec) now = true)
    (hcomp : rec.status = .completed → rec.response.isSome = true) :
    (∃ r, rec.response = some r ∧ rec.status = .completed ∧
       claimPhase (some rec) now key request = .fromCache r) ∨
    (rec.status = .processing ∧ claimPhase (some rec) now key request = .errConcurrent) ∨
    (rec.status = .failed ∧ claimPhase (some rec) now key request = .errPrevFailed rec.error) := by
  simp only [freshAtB, Bool.and_eq_true, Bool.or_eq_true, Bool.not_eq_true',
    decide_eq_true_eq, decide_eq_false_iff_not] at hfresh
  obtain ⟨hexp, hps⟩ := hfresh
  cases hst : rec.status with
  | processing =>
    refine Or.inr (Or.inl ⟨rfl, ?_⟩)
    have hage : now - (rec.processingStartedAt.getD rec.createdAt) ≤ PROCESSING_TIMEOUT_MS := by
      rcases hps with hps | hps
      · exact absurd hst hps
      · exact hps
    exact claimPhase_processing_fresh rec now key request hexp hst hage
  | completed =>
    obtain ⟨r, hr⟩ := Option.isSome_iff_exists.mp (hcomp hst)
    exact Or.inl ⟨r, hr, rfl, claimPhase_completed rec now key request r hexp hst hr⟩
  | failed =>
    exact Or.inr (Or.inr ⟨rfl, claimPhase_failed rec now key request hexp hst⟩)

/-- A claim whose transaction does not proceed leaves the stored record
unchanged. -/
theorem stepRec_claim_stay {R : Type} (key : String) (request : IngestRequest)
    (st : Option (IdemRecord R)) (now : ℤ)
    (h : isProceedB (claimPhase st now key request) = false) :
    stepRec key request st (.claim now) = st := by
  unfold stepRec
  dsimp only
  cases hcp : claimPhase st now key request
  · rfl
  · rfl
  · rfl
  · rw [hcp] at h
    simp [isProceedB] at h

/-- Unfolding `proceedCount` at a claim action. -/
theorem proceedCount_claim_cons {R : Type} (key : String) (request : IngestRequest)
    (st : Option (IdemRecord R)) (now : ℤ) (rest : List (IdemAct R)) :
    proceedCount key request st (.claim now :: rest)
      = (if isProceedB (claimPhase st now key request) then 1 else 0)
        + proceedCount key request (stepRec key request st (.claim now)) rest := rfl

/-- Unfolding `proceedCount` at a success finalize. -/
theorem proceedCount_finOk_cons {R : Type} (key : String) (request : IngestRequest)
    (st : Option (IdemRecord R)) (r : R) (rest : List (IdemAct R)) :
    proceedCount key request st (.finOk r :: rest)
      = proceedCount key request (stepRec key request st (.finOk r)) rest := by
  simp [proceedCount]

/-- Unfolding `proceedCount` at a failure finalize. -/
theorem proceedCount_finFail_cons {R : Type} (key : String) (request : IngestRequest)
    (st : Option (IdemRecord R)) (e : String) (rest : List (IdemAct R)) :
    proceedCount key request st (.finFail e :: rest)
      = proceedCount key request (stepRec key request st (.finFail e)) rest := by
  simp [proceedCount]

/-- Unfolding `succResponses` at a claim action. -/
theorem succResponses_claim_cons {R : Type} (key : String) (request : IngestRequest)
    (st : Option (IdemRecord R)) (now : ℤ) (rest : List (IdemAct R)) :
    succResponses key request st (.claim now :: rest)
      = (match claimPhase st now key request with
         | .fromCache r => [r]
         | _ => []) ++ succResponses key request (stepRec key request st (.claim now)) rest := rfl

/-- Unfolding `succResponses` at a success finalize. -/
theorem succResponses_finOk_cons {R : Type} (key : String) (request : IngestRequest)
    (st : Option (IdemRecord R)) (r : R) (rest : List (IdemAct R)) :
    succResponses key request st (.finOk r :: rest)
      = r :: succResponses key request (stepRec key request st (.finOk r)) rest := rfl

/-- Unfolding `succResponses` at a failure finalize. -/
theorem succResponses_finFail_cons {R : Type} (key : String) (request : IngestRequest)
    (st : Option (IdemRecord R)) (e : String) (rest : List (IdemAct R)) :
    succResponses key request st (.finFail e :: rest)
      = succResponses key request (stepRec key request st (.finFail e)) rest := rfl

/-- Unfolding `wfTraceB` at a claim action. -/
theorem wfTraceB_claim_cons {R : Type} (key : String) (request : IngestRequest)
    (st : Option (IdemRecord R)) (pending : ℕ) (now : ℤ) (rest : List (IdemAct R)) :
    wfTraceB key request st pending (.claim now :: rest)
      = (freshAtB st now &&
          wfTraceB key request (stepRec key request st (.claim now))
            (pending + (if isProceedB (claimPhase st now key request) then 1 else 0)) rest) := rfl

/-- Unfolding `wfTraceB` at a success finalize. -/
theorem wfTraceB_finOk_cons {R : Type} (key : String) (request : IngestRequest)
    (st : Option (IdemRecord R)) (pending : ℕ) (r : R) (rest : List (IdemAct R)) :
    wfTraceB key request st pending (.finOk r :: rest)
      = (decide (1 ≤ pending) &&
          wfTraceB key request (stepRec key request st (.finOk r)) (pending - 1) rest) := rfl

/-- Unfolding `wfTraceB` at a failure finalize. -/
theorem wfTraceB_finFail_cons {R : Type} (key : String) (request : IngestRequest)
    (st : Option (IdemRecord R)) (pending : ℕ) (e : String) (rest : List (IdemAct R)) :
    wfTraceB key request st pending (.finFail e :: rest)
      = (decide (1 ≤ pending) &&
          wfTraceB key request (stepRec key request st (.finFail e)) (pending - 1) rest) := rfl

/-- The protocol invariant, by induction over well-formed interleavings
of claims and finalizes on one key: (a) once a record exists no claim
proceeds, so the wrapped processor runs at most once overall, and (b)
every success response equals the one recorded in the completed record,
so all observed success responses agree. -/
theorem idem_trace_induction {R : Type} (key : String) (request : IngestRequest) :
    ∀ (acts : List (IdemAct R)) (st : Option (IdemRecord R)) (pending : ℕ),
      wfTraceB key request st pending acts = true →
      stInvB st pending = true →
      (proceedCount key request st acts ≤ (if st.isSome then 0 else 1)) ∧
      (∀ rec r0, st = some rec → rec.status = .completed → rec.response = some r0 →
          ∀ x ∈ succResponses key request st acts, x = r0) ∧
      (∀ x ∈ succResponses key request st acts,
         ∀ y ∈ succResponses key request st acts, x = y) := by
  intro acts
  induction acts with
  | nil =>
    intro st pending _ _
    refine ⟨by simp [proceedCount], ?_, ?_⟩
    · intro rec r0 _ _ _ x hx
      simp [succResponses] at hx
    · intro x hx
      simp [succResponses] at hx
  | cons a rest ih =>
    intro st pending hwf hinv
    cases a with
    | claim now =>
      rw [wfTraceB_claim_cons, Bool.and_eq_true] at hwf
      obtain ⟨hfresh, hwf'⟩ := hwf
      cases st with
      | none =>
        have hcp : claimPhase (none : Option (IdemRecord R)) now key request
            = .proceed (freshRecord R key request now) := rfl
        have hpB : isProceedB (claimPhase (none : Option (IdemRecord R)) now key request) = true := by
          rw [hcp]
          rfl
        have hstep : stepRec key request (none : Option (IdemRecord R)) (.claim now)
            = some (freshRecord R key request now) := rfl
        rw [hstep, hpB, if_pos rfl] at hwf'
        have hp0 : pending = 0 := by simpa [stInvB] using hinv
        have hinv' : stInvB (some (freshRecord R key request now)) (pending + 1) = true := by
          subst hp0
          simp [stInvB, freshRecord]
        have hih := ih (some (freshRecord R key request now)) (pending + 1) hwf' hinv'
        refine ⟨?_, ?_, ?_⟩
        · rw [proceedCount_claim_cons, hstep, hpB, if_pos rfl]
          have h1 : proceedCount key request (some (freshRecord R key request now)) rest ≤ 0 := by
            simpa using hih.1
          simp only [Option.isSome_none, Bool.false_eq_true, if_false]
          omega
        · intro rec r0 hrec
          exact absurd hrec (by simp)
        · intro x hx y hy
          rw [succResponses_claim_cons, hcp, hstep] at hx hy
          simp only [List.nil_append] at hx hy
          exact hih.2.2 x hx y hy
      | some rec =>
        have hcomp : rec.status = .completed → rec.response.isSome = true := by
          intro hst
          rcases stInv_some_elim rec pending hinv with ⟨h1, _⟩ | ⟨_, h2, _⟩ | ⟨h1, _⟩
          · rw [hst] at h1
            exact absurd h1 (by simp)
          · exact h2
          · rw [hst] at h1
            exact absurd h1 (by simp)
        rcases claim_some_classify rec now key request hfresh hcomp with
          ⟨r0, hresp, hst, hcp⟩ | ⟨hst, hcp⟩ | ⟨hst, hcp⟩
        · -- replay from cache
          have hnp : isProceedB (claimPhase (some rec) now key request) = false := by
            rw [hcp]
            rfl
          have hstay := stepRec_claim_stay key request (some rec) now hnp
          rw [hstay, hnp, if_neg Bool.false_ne_true, Nat.add_zero] at hwf'
          have hih := ih (some rec) pending hwf' hinv
          refine ⟨?_, ?_, ?_⟩
          · rw [proceedCount_claim_cons, hstay, hnp, if_neg Bool.false_ne_true]
            simpa using hih.1
          · intro rec' r0' hrec' hst' hresp' x hx
            have hrr : rec = rec' := by
              injection hrec'
            subst hrr
            have hr00 : r0 = r0' := by
              rw [hresp] at hresp'
              injection hresp'
            simp only [succResponses_claim_cons, hcp, hstay, List.singleton_append,
              List.mem_cons] at hx
            rcases hx with hx | hx
            · rw [hx, hr00]
            · exact hih.2.1 rec r0' rfl hst' hresp' x hx
          · intro x hx y hy
            have hanchor := hih.2.1 rec r0 rfl hst hresp
            simp only [succResponses_claim_cons, hcp, hstay, List.singleton_append,
              List.mem_cons] at hx hy
            have hx' : x = r0 := by
              rcases hx with hx | hx
              · exact hx
              · exact hanchor x hx
            have hy' : y = r0 := by
              rcases hy with hy | hy
              · exact hy
              · exact hanchor y hy
            rw [hx', hy']
        · -- concurrent rejection
          have hnp : isProceedB (claimPhase (some rec) now key request) = false := by
            rw [hcp]
            rfl
          have hstay := stepRec_claim_stay key request (some rec) now hnp
          rw [hstay, hnp, if_neg Bool.false_ne_true, Nat.add_zero] at hwf'
          have hih := ih (some rec) pending hwf' hinv
          refine ⟨?_, ?_, ?_⟩
          · rw [proceedCount_claim_cons, hstay, hnp, if_neg Bool.false_ne_true]
            simpa using hih.1
          · intro rec' r0' hrec' hst' hresp' x hx
            simp only [succResponses_claim_cons, hcp, hstay, List.nil_append] at hx
            exact hih.2.1 rec' r0' hrec' hst' hresp' x hx
          · intro x hx y hy
            simp only [succResponses_claim_cons, hcp, hstay, List.nil_append] at hx hy
            exact hih.2.2 x hx y hy
        · -- previous failure rejection
          have hnp : isProceedB (claimPhase (some rec) now key request) = false := by
            rw [hcp]
            rfl
          have hstay := stepRec_claim_stay key request (some rec) now hnp
          rw [hstay, hnp, if_neg Bool.false_ne_true, Nat.add_zero] at hwf'
          have hih := ih (some rec) pending hwf' hinv
          refine ⟨?_, ?_, ?_⟩
          · rw [proceedCount_claim_cons, hstay, hnp, if_neg Bool.false_ne_true]
            simpa using hih.1
          · intro rec' r0' hrec' hst' hresp' x hx
            simp only [succResponses_claim_cons, hcp, hstay, List.nil_append] at hx
            exact hih.2.1 rec' r0' hrec' hst' hresp' x hx
          · intro x hx y hy
            simp only [succResponses_claim_cons, hcp, hstay, List.nil_append] at hx hy
            exact hih.2.2 x hx y hy
    | finOk r =>
      rw [wfTraceB_finOk_cons, Bool.and_eq_true, decide_eq_true_eq] at hwf
      obtain ⟨hpend, hwf'⟩ := hwf
      cases st with
      | none =>
        have hp0 : pending = 0 := by simpa [stInvB] using hinv
        omega
      | some rec =>
        rcases stInv_some_elim rec pending hinv with ⟨hst, hple⟩ | ⟨_, _, hp0⟩ | ⟨_, hp0⟩
        · have hstep : stepRec key request (some rec) (.finOk r)
              = some (completeRecord rec r) := rfl
          rw [hstep] at hwf'
          have hinv' : stInvB (some (completeRecord rec r)) (pending - 1) = true := by
            have hp1 : pending = 1 := by omega
            subst hp1
            simp [stInvB, completeRecord]
          have hih := ih (some (completeRecord rec r)) (pending - 1) hwf' hinv'
          refine ⟨?_, ?_, ?_⟩
          · rw [proceedCount_finOk_cons, hstep]
            simpa using hih.1
          · intro rec' r0' hrec' hst' hresp' x hx
            have hrr : rec = rec' := by
              injection hrec'
            subst hrr
            rw [hst] at hst'
            simp at hst'
          · intro x hx y hy
            have hanchor := hih.2.1 (completeRecord rec r) r rfl rfl rfl
            rw [succResponses_finOk_cons, hstep] at hx hy
            rcases List.mem_cons.mp hx with hx' | hx' <;>
              rcases List.mem_cons.mp hy with hy' | hy'
            · rw [hx', hy']
            · rw [hx', hanchor y hy']
            · rw [hy', hanchor x hx']
            · rw [hanchor x hx', hanchor y hy']
        · omega
        · omega
    | finFail e =>
      rw [wfTraceB_finFail_cons, Bool.and_eq_true, decide_eq_true_eq] at hwf
      obtain ⟨hpend, hwf'⟩ := hwf
      cases st with
      | none =>
        have hp0 : pending = 0 := by simpa [stInvB] using hinv
        omega
      | some rec =>
        rcases stInv_some_elim rec pending hinv with ⟨hst, hple⟩ | ⟨_, _, hp0⟩ | ⟨_, hp0⟩
        · have hstep : stepRec key request (some rec) (.finFail e)
              = some (failRecord rec e) := rfl
          rw [hstep] at hwf'
          have hinv' : stInvB (some (failRecord rec e)) (pending - 1) = true := by
            have hp1 : pending = 1 := by omega
            subst hp1
            simp [stInvB, failRecord]
          have hih := ih (some (failRecord rec e)) (pending - 1) hwf' hinv'
          refine ⟨?_, ?_, ?_⟩
          · rw [proceedCount_finFail_cons, hstep]
            simpa using hih.1
          · intro rec' r0' hrec' hst' hresp' x hx
            have hrr : rec = rec' := by
              injection hrec'
            subst hrr
            rw [hst] at hst'
            simp at hst'
          · intro x hx y hy
            rw [succResponses_finFail_cons, hstep] at hx hy
            exact hih.2.2 x hx y hy
        · omega
        · omega

/-- Claim C2: along any well-formed interleaving of concurrent
`processWithIdempotency` calls for one key — each claim transaction
running against a record that is neither expired nor past the 2-minute
processing timeout, and each finalize issued by a caller whose claim
proceeded — the wrapped processor executes at most once, and any two
success responses observed by callers (cached replays and the
proceeding caller's own result) are equal. -/
theorem C2_at_most_once_agreeing_responses {R : Type} (key : String) (request : IngestRequest)
    (st0 : Option (IdemRecord R)) (acts : List (IdemAct R))
    (hinv : stInvB st0 0 = true) (hwf : wfTraceB key request st0 0 acts = true) :
    proceedCount key request st0 acts ≤ 1 ∧
    (∀ x ∈ succResponses key request st0 acts,
       ∀ y ∈ succResponses key request st0 acts, x = y) := by
  have h := idem_trace_induction key request acts st0 0 hwf hinv
  refine ⟨?_, h.2.2⟩
  have h1 := h.1
  cases st0 with
  | none => simpa using h1
  | some rec =>
    have h0 : proceedCount key request (some rec) acts ≤ 0 := by simpa using h1
    omega

/-- Witness for C2: two interleaved claims on a fresh key — the first
proceeds and finalizes with response 7, the second replays it. -/
theorem C2_at_most_once_agreeing_responses_witness :
    proceedCount "key-1" wReq (none : Option (IdemRecord ℕ))
        [IdemAct.claim 0, IdemAct.finOk 7, IdemAct.claim 1] ≤ 1 ∧
    (7 : ℕ) = 7 :=
  ⟨(C2_at_most_once_agreeing_responses "key-1" wReq (none : Option (IdemRecord ℕ))
      [IdemAct.claim 0, IdemAct.finOk 7, IdemAct.claim 1] rfl (by decide)).1,
   (C2_at_most_once_agreeing_responses "key-1" wReq (none : Option (IdemRecord ℕ))
      [IdemAct.claim 0, IdemAct.finOk 7, IdemAct.claim 1] rfl (by decide)).2
     7 (by decide) 7 (by decide)⟩
